import Mathlib

/-!
Shallow embedding of the junior-soccer backend's live-match subsystem:
the Match / Player / Statistics data model (mongoose schemas), the match
lifecycle handlers (start, substitute, playtime query, end), the
statistics materialization step, the schedule update/cancel handlers and
the team auto-generator.  Document-store references are modelled as
natural-number ids, timestamps as integer milliseconds, and the mongoose
`Map` ledger as an association list with set-replace semantics.
-/

namespace Soccer

/-- Player field positions, per the Player schema enum. -/
inductive Pos where
  | Goalkeeper
  | Defender
  | Midfielder
  | Forward
deriving DecidableEq, Repr

/-- Injury states, per the Player schema enum. -/
inductive InjuryStatus where
  | Healthy
  | MinorInjury
  | MajorInjury
  | Recovering
deriving DecidableEq, Repr

/-- Match lifecycle status, per the Match schema enum. -/
inductive Status where
  | scheduled
  | ongoing
  | completed
  | cancelled
deriving DecidableEq, Repr

/-- Event type of a Match document (the schema enum is "match" | "training";
`match` is reserved in Lean so the first constructor carries a trailing mark). -/
inductive MatchType where
  | match_
  | training
deriving DecidableEq, Repr

/-- Player document (schema fields relevant to the match subsystem). -/
structure Player where
  id : Nat
  name : String
  jerseyNumber : Nat
  position : Pos
  preferredPositions : List Pos
  injuryStatus : InjuryStatus
  availability : Bool
deriving DecidableEq, Repr

/-- One entry of the append-only substitution log (substitutionSchema). -/
structure Substitution where
  playerIn : Nat
  playerOut : Nat
  time : Int
  reason : String
deriving DecidableEq, Repr

/-- One per-player performance record (playerPerformanceSchema). -/
structure Performance where
  playerId : Nat
  goals : Nat
  assists : Nat
  yellowCards : Nat
  redCards : Nat
  rating : Option Nat
  playerOfMatch : Bool
  minutesPlayed : Int
deriving DecidableEq, Repr

/-- Match result subdocument (matchResultSchema). -/
structure MatchResult where
  result : String
  ourScore : Int
  opponentScore : Int
deriving DecidableEq, Repr

/-- The per-match playtime ledger: the mongoose `Map` of player id to
accumulated minutes, modelled as an association list with unique keys. -/
abbrev Ledger := List (Nat × Int)

/-- Lookup in the ledger, as `Map.get` (first matching key; `Map` keys are unique). -/
def mapGet (m : Ledger) (k : Nat) : Option Int :=
  match m with
  | [] => none
  | e :: rest => if e.1 = k then some e.2 else mapGet rest k

/-- Overwrite-or-insert in the ledger, as `Map.set`. -/
def mapSet (m : Ledger) (k : Nat) (v : Int) : Ledger :=
  match m with
  | [] => [(k, v)]
  | e :: rest => if e.1 = k then (k, v) :: rest else e :: mapSet rest k v

/-- Insertion step of the stable sort modelling `Array.prototype.sort`:
an element goes in front of the first element it compares less-or-equal to,
so earlier elements stay in front of later equal-key ones. -/
def stableInsert {α : Type} (le : α → α → Bool) (x : α) : List α → List α
  | [] => [x]
  | y :: ys => if le x y then x :: y :: ys else y :: stableInsert le x ys

/-- Stable sort modelling `Array.prototype.sort` with an ascending
comparator (the ECMAScript sort is stable; any stable sort agrees with it on
a total preorder comparator). -/
def stableSort {α : Type} (le : α → α → Bool) : List α → List α
  | [] => []
  | x :: xs => stableInsert le x (stableSort le xs)

theorem length_stableInsert {α : Type} (le : α → α → Bool) (x : α) (l : List α) :
    (stableInsert le x l).length = l.length + 1 := by
  induction l with
  | nil => rfl
  | cons y ys ih =>
    by_cases h : le x y = true
    · simp [stableInsert, h]
    · simp [stableInsert, h, ih]

theorem length_stableSort {α : Type} (le : α → α → Bool) (l : List α) :
    (stableSort le l).length = l.length := by
  induction l with
  | nil => rfl
  | cons x xs ih => simp [stableSort, length_stableInsert, ih]

theorem mem_stableInsert {α : Type} (le : α → α → Bool) (x a : α) (l : List α) :
    a ∈ stableInsert le x l ↔ a = x ∨ a ∈ l := by
  induction l with
  | nil => simp [stableInsert]
  | cons y ys ih =>
    by_cases h : le x y = true
    · simp [stableInsert, h]
    · simp only [stableInsert, h, Bool.false_eq_true, if_false, List.mem_cons, ih]
      tauto

theorem mem_stableSort {α : Type} (le : α → α → Bool) (a : α) (l : List α) :
    a ∈ stableSort le l ↔ a ∈ l := by
  induction l with
  | nil => simp [stableSort]
  | cons x xs ih => simp [stableSort, mem_stableInsert, ih]

/-- Match document (matchSchema).  `createdAt` is the mongoose timestamp used
as the match start time by the playtime derivation. -/
structure Match where
  id : Nat
  date : Int
  type : MatchType
  teamSheet : List Nat
  substitutions : List Substitution
  playtime : Ledger
  status : Status
  duration : Int
  opponent : Option String
  venue : Option String
  notes : Option String
  matchResult : Option MatchResult
  playerPerformances : List Performance
  createdAt : Int
deriving DecidableEq, Repr

/-- Statistics document (statisticsSchema).  `positionsPlayed` entries are
optional strings because one code path stores an undefined position. -/
structure Stat where
  playerId : Nat
  matchId : Nat
  minutesPlayed : Int
  positionsPlayed : List (Option String)
  substitutionsCount : Nat
  injuries : List String
  playerOfMatch : Bool
  goals : Nat
  assists : Nat
  yellowCards : Nat
  redCards : Nat
  rating : Option Nat
deriving DecidableEq, Repr

/-- The document store: the three collections the subsystem touches.
The match collection is named `matchDocs` because `matches` is a reserved
token in Lean. -/
structure Store where
  players : List Player
  matchDocs : List Match
  stats : List Stat
deriving DecidableEq, Repr

/-- Structured failure surfaced to the caller: HTTP status plus message.
Status 404 carries the NotFound class; status 400 carries the
InvalidState / ValidationFailure classes, distinguished by message. -/
structure ApiError where
  status : Nat
  message : String
deriving DecidableEq, Repr

/-- Model of `Match.findById`. -/
def findMatch (s : Store) (mid : Nat) : Option Match :=
  s.matchDocs.find? (fun m => m.id == mid)

/-- Model of `Player.findById`. -/
def findPlayer (s : Store) (pid : Nat) : Option Player :=
  s.players.find? (fun p => p.id == pid)

/-- Model of `document.save` for a loaded match: write the mutated document
back over every stored match with the same id. -/
def saveMatch (ms : List Match) (m : Match) : List Match :=
  ms.map (fun x => if x.id == m.id then m else x)

/-- Method `getPlayerPlaytime`: ledger lookup defaulting to 0. -/
def Match.getPlayerPlaytime (m : Match) (pid : Nat) : Int :=
  (mapGet m.playtime pid).getD 0

/-- Method `updatePlayerPlaytime`: absolute overwrite of a ledger entry. -/
def Match.updatePlayerPlaytime (m : Match) (pid : Nat) (minutes : Int) : Match :=
  { m with playtime := mapSet m.playtime pid minutes }

/-- Method `getTotalPlaytime`: sum of all ledger values. -/
def Match.getTotalPlaytime (m : Match) : Int :=
  m.playtime.foldl (fun acc e => acc + e.2) 0

/-- Method `calculateTeamGoals`: sum of goals over all performance entries. -/
def Match.calculateTeamGoals (m : Match) : Nat :=
  m.playerPerformances.foldl (fun total p => total + p.goals) 0

/-- Method `getPlayerPerformance`: first performance entry for a player. -/
def Match.getPlayerPerformance (m : Match) (pid : Nat) : Option Performance :=
  m.playerPerformances.find? (fun p => p.playerId == pid)

/-- Field bundle assigned over an existing performance by
`updatePlayerPerformance` (every field except the player id). -/
structure PerfData where
  goals : Nat
  assists : Nat
  yellowCards : Nat
  redCards : Nat
  rating : Option Nat
  playerOfMatch : Bool
  minutesPlayed : Int
deriving DecidableEq, Repr

/-- Overwrite the first performance entry for `pid` with the given data
(`Object.assign` onto the entry found by `find`). -/
def assignPerf (l : List Performance) (pid : Nat) (d : PerfData) : List Performance :=
  match l with
  | [] => []
  | p :: rest =>
    if p.playerId == pid then
      { p with
        goals := d.goals
        assists := d.assists
        yellowCards := d.yellowCards
        redCards := d.redCards
        rating := d.rating
        playerOfMatch := d.playerOfMatch
        minutesPlayed := d.minutesPlayed } :: rest
    else p :: assignPerf rest pid d

/-- Method `updatePlayerPerformance`: upsert by player id into the
performance list. -/
def Match.updatePlayerPerformance (m : Match) (pid : Nat) (d : PerfData) : Match :=
  if (m.getPlayerPerformance pid).isSome then
    { m with playerPerformances := assignPerf m.playerPerformances pid d }
  else
    { m with playerPerformances := m.playerPerformances ++
        [{ playerId := pid
           goals := d.goals
           assists := d.assists
           yellowCards := d.yellowCards
           redCards := d.redCards
           rating := d.rating
           playerOfMatch := d.playerOfMatch
           minutesPlayed := d.minutesPlayed }] }

/-- Method `validateMatchResult`: for a completed match of type "match" with a
result present, overwrite `ourScore` with the goals summed from player
performances (the authoritative scoring rule). -/
def Match.validateMatchResult (m : Match) : Match :=
  match m.matchResult with
  | none => m
  | some r =>
    if m.type ≠ MatchType.match_ then m
    else { m with matchResult := some { r with ourScore := (m.calculateTeamGoals : Int) } }

/-- Status names as they appear in interpolated response messages. -/
def statusToString : Status → String
  | .scheduled => "scheduled"
  | .ongoing => "ongoing"
  | .completed => "completed"
  | .cancelled => "cancelled"

/-- Handler `startExistingMatch` (PUT /api/matches/:id/start): only a
scheduled match may be started; on success the status becomes ongoing and the
document is saved unchanged otherwise (no ledger initialization happens on
this path). -/
def startExistingMatch (s : Store) (mid : Nat) : Store × Except ApiError Match :=
  match findMatch s mid with
  | none => (s, .error ⟨404, "Match not found"⟩)
  | some m =>
    if m.status ≠ Status.scheduled then
      (s, .error ⟨400, "Cannot start match with status: " ++ statusToString m.status ++
        ". Only scheduled matches can be started."⟩)
    else
      let m' := { m with status := Status.ongoing }
      ({ s with matchDocs := saveMatch s.matchDocs m' }, .ok m')

/-- Request body of POST /api/matches/start: the inline team sheet plus the
spread match data fields. -/
structure StartMatchRequest where
  teamSheet : Option (List Nat)
  type : MatchType
  date : Int
  duration : Option Int
  opponent : Option String
  venue : Option String
  notes : Option String
deriving DecidableEq, Repr

/-- Creation step of `startMatch`: insert the ongoing match and initialize a
zero ledger entry for every team-sheet player. -/
def createAndInitMatch (s : Store) (req : StartMatchRequest) (newId : Nat) (now : Int) :
    Store × Except ApiError Match :=
  let ts := req.teamSheet.getD []
  let m : Match :=
    { id := newId
      date := req.date
      type := req.type
      teamSheet := ts
      substitutions := []
      playtime := []
      status := Status.ongoing
      duration := req.duration.getD 90
      opponent := req.opponent
      venue := req.venue
      notes := req.notes
      matchResult := none
      playerPerformances := []
      createdAt := now }
  let m1 := if ts.length > 0 then ts.foldl (fun acc pid => acc.updatePlayerPlaytime pid 0) m else m
  ({ s with matchDocs := s.matchDocs ++ [m1] }, .ok m1)

/-- Handler `startMatch` (POST /api/matches/start): validates that every
inline team-sheet player resolves to an available player, then creates the
match directly in ongoing status. -/
def startMatch (s : Store) (req : StartMatchRequest) (newId : Nat) (now : Int) :
    Store × Except ApiError Match :=
  match req.teamSheet with
  | some l =>
    if l.length > 0 then
      let players := s.players.filter (fun p => l.contains p.id && p.availability)
      if players.length ≠ l.length then
        (s, .error ⟨400, "Some players in the team sheet are not available"⟩)
      else createAndInitMatch s req newId now
    else createAndInitMatch s req newId now
  | none => createAndInitMatch s req newId now

/-- Request body of POST /api/matches/:id/substitute. -/
structure SubRequest where
  playerIn : Nat
  playerOut : Nat
  time : Option Int
  reason : Option String
  injuryStatus : Option InjuryStatus
  injuryNotes : Option String
deriving DecidableEq, Repr

/-- JavaScript `value || fallback` on an optional string (the empty string is
falsy and also takes the fallback). -/
def stringOrDefault (o : Option String) (d : String) : String :=
  match o with
  | none => d
  | some str => if str = "" then d else str

/-- Test used by the injury side effect: the lowercased reason contains the
substring "injury". -/
def reasonMentionsInjury (r : String) : Bool :=
  (r.toLower.splitOn "injury").length ≠ 1

/-- Handler `makeSubstitution` (POST /api/matches/:id/substitute): validates
match/player existence, ongoing status and team-sheet membership; credits the
outgoing player with minutes elapsed since match creation, initializes the
incoming player ledger entry, swaps the team-sheet slot in place, appends the
substitution record and, for injury reasons with a supplied status, updates
the outgoing player document (the schema has no injuryNotes path, so only
injuryStatus is persisted there). -/
def makeSubstitution (s : Store) (mid : Nat) (req : SubRequest) (now : Int) :
    Store × Except ApiError Match :=
  match findMatch s mid with
  | none => (s, .error ⟨404, "Match not found"⟩)
  | some m =>
    if m.status ≠ Status.ongoing then
      (s, .error ⟨400, "Can only make substitutions during ongoing matches"⟩)
    else if (findPlayer s req.playerIn).isNone ∨ (findPlayer s req.playerOut).isNone then
      (s, .error ⟨404, "One or both players not found"⟩)
    else if ¬ m.teamSheet.contains req.playerOut then
      (s, .error ⟨400, "Player to be substituted is not currently on the field"⟩)
    else if m.teamSheet.contains req.playerIn then
      (s, .error ⟨400, "Player coming in is already on the field"⟩)
    else
      let substitutionTime := req.time.getD now
      let minutesPlayed := Int.fdiv (substitutionTime - m.createdAt) (1000 * 60)
      let m1 := m.updatePlayerPlaytime req.playerOut
        (m.getPlayerPlaytime req.playerOut + minutesPlayed)
      let m2 := m1.updatePlayerPlaytime req.playerIn (m1.getPlayerPlaytime req.playerIn)
      let m3 := { m2 with teamSheet := m2.teamSheet.set (m2.teamSheet.indexOf req.playerOut) req.playerIn }
      let m4 := { m3 with substitutions := m3.substitutions ++
        [{ playerIn := req.playerIn
           playerOut := req.playerOut
           time := substitutionTime
           reason := stringOrDefault req.reason "Tactical substitution" }] }
      let players' :=
        if (match req.reason with
            | some r => !(r == "") && reasonMentionsInjury r && req.injuryStatus.isSome
            | none => false) then
          s.players.map (fun p =>
            if p.id == req.playerOut then
              { p with injuryStatus := req.injuryStatus.getD p.injuryStatus }
            else p)
        else s.players
      ({ s with players := players', matchDocs := saveMatch s.matchDocs m4 }, .ok m4)

/-- Advisory fairness check `checkPlaytimeFairness`: flags a spread of more
than 20 minutes across the ledger (emitted only over the optional socket,
never persisted). -/
def checkPlaytimeFairness (m : Match) : Option (Int × Int × Int) :=
  let playtimes := m.playtime.map (·.2)
  if playtimes.length < 2 then none
  else
    let maxPlaytime := (playtimes.max?).getD 0
    let minPlaytime := (playtimes.min?).getD 0
    let difference := maxPlaytime - minPlaytime
    if difference > 20 then some (maxPlaytime, minPlaytime, difference) else none

/-- Time of the most recent substitution bringing `pid` onto the field
(the source filters the log by incoming player, sorts descending by time and
takes the head, which is the maximum). -/
def lastInSubTime (m : Match) (pid : Nat) : Option Int :=
  ((m.substitutions.filter (fun sb => sb.playerIn == pid)).map (·.time)).max?

/-- One step of the playtime finalization loop shared by the playtime query
and end-match handlers: accumulate minutes since continuous-play start. -/
def finalizeStep (now : Int) (acc : Match) (pid : Nat) : Match :=
  let startTime := (lastInSubTime acc pid).getD acc.createdAt
  let timePlayed := Int.fdiv (now - startTime) (1000 * 60)
  acc.updatePlayerPlaytime pid (acc.getPlayerPlaytime pid + timePlayed)

/-- Playtime finalization over the current team sheet (the identical loop
appears in `getPlaytimeStats` and in `endMatch`). -/
def finalizePlaytime (m : Match) (now : Int) : Match :=
  m.teamSheet.foldl (finalizeStep now) m

/-- One row of the playtime report. -/
structure PlaytimeEntry where
  playerId : Nat
  minutesPlayed : Int
  isCurrentlyPlaying : Bool
deriving DecidableEq, Repr

/-- Fair-play summary of the playtime report.  The source computes the
average on floating-point numbers and rounds; here the rounding of the exact
rational is taken, and the degenerate empty-roster values are 0. -/
structure FairPlay where
  averageMinutes : Int
  maxMinutes : Int
  minMinutes : Int
  difference : Int
  isFair : Bool
deriving DecidableEq, Repr

/-- Response payload of GET /api/matches/:id/playtime. -/
structure PlaytimeStatsResponse where
  status : Status
  playtimeStats : List PlaytimeEntry
  fairPlay : FairPlay
  totalPlayersUsed : Nat
deriving DecidableEq, Repr

/-- Handler `getPlaytimeStats` (GET /api/matches/:id/playtime): for an
ongoing match the ledger of the loaded copy is recomputed-and-accumulated
with minutes up to now, the report is built from it, and the document is
never saved. -/
def getPlaytimeStats (s : Store) (mid : Nat) (now : Int) :
    Store × Except ApiError PlaytimeStatsResponse :=
  match findMatch s mid with
  | none => (s, .error ⟨404, "Match not found"⟩)
  | some m =>
    let m1 := if m.status = Status.ongoing then finalizePlaytime m now else m
    let allPlayerIds := m1.playtime.map (·.1)
    let players := s.players.filter (fun p => allPlayerIds.contains p.id)
    let entries := players.map (fun p =>
      { playerId := p.id
        minutesPlayed := m1.getPlayerPlaytime p.id
        isCurrentlyPlaying := m1.teamSheet.contains p.id : PlaytimeEntry })
    let sorted := stableSort (fun a b => decide (b.minutesPlayed ≤ a.minutesPlayed)) entries
    let totalMinutes := sorted.foldl (fun acc e => acc + e.minutesPlayed) 0
    let n : Int := sorted.length
    let fairPlay : FairPlay :=
      { averageMinutes := Int.fdiv (2 * totalMinutes + n) (2 * n)
        maxMinutes := ((sorted.map (·.minutesPlayed)).max?).getD 0
        minMinutes := ((sorted.map (·.minutesPlayed)).min?).getD 0
        difference := ((sorted.map (·.minutesPlayed)).max?).getD 0 -
          ((sorted.map (·.minutesPlayed)).min?).getD 0
        isFair := decide (((sorted.map (·.minutesPlayed)).max?).getD 0 -
          ((sorted.map (·.minutesPlayed)).min?).getD 0 ≤ 15) }
    (s, .ok { status := m.status
              playtimeStats := sorted
              fairPlay := fairPlay
              totalPlayersUsed := sorted.length })

/-- Lookup of `Statistics.findOne` keyed by the unique playerId + matchId pair. -/
def findStat (store : List Stat) (pid mid : Nat) : Option Stat :=
  store.find? (fun st => st.playerId == pid && st.matchId == mid)

/-- Save of a mutated loaded Statistics document: overwrite the first record
with the same unique key. -/
def updateFirstStat (store : List Stat) (pid mid : Nat) (f : Stat → Stat) : List Stat :=
  match store with
  | [] => []
  | st :: rest =>
    if st.playerId == pid && st.matchId == mid then f st :: rest
    else st :: updateFirstStat rest pid mid f

/-- Rendering of a position enum value to its schema string. -/
def posToString : Pos → String
  | .Goalkeeper => "Goalkeeper"
  | .Defender => "Defender"
  | .Midfielder => "Midfielder"
  | .Forward => "Forward"

/-- Fresh position lookup performed during materialization: the positions
list becomes the current primary position of the player when found, and the
given fallback otherwise. -/
def lookupPositions (players : List Player) (pid : Nat) (dflt : List (Option String)) :
    List (Option String) :=
  match players.find? (fun p => p.id == pid) with
  | some p => [some (posToString p.position)]
  | none => dflt

/-- Field assignments performed on an existing Statistics record by the
performance loop: stat fields from the performance, then the fresh position
lookup (the raw reference position assigned first is undefined, hence the
`none` fallback). -/
def perfStatUpdate (players : List Player) (perf : Performance) (st : Stat) : Stat :=
  { st with
    minutesPlayed := perf.minutesPlayed
    goals := perf.goals
    assists := perf.assists
    yellowCards := perf.yellowCards
    redCards := perf.redCards
    rating := perf.rating
    playerOfMatch := perf.playerOfMatch
    positionsPlayed := lookupPositions players perf.playerId [none] }

/-- Minutes refresh performed on an existing Statistics record by the
team-sheet loop. -/
def tsStatUpdate (minutes : Int) (st : Stat) : Stat :=
  { st with minutesPlayed := minutes }

/-- First loop of `createStatisticsFromMatch`: upsert a Statistics record for
one performance entry. -/
def processPerformance (players : List Player) (m : Match) (store : List Stat)
    (perf : Performance) : List Stat :=
  match findStat store perf.playerId m.id with
  | some _ =>
    updateFirstStat store perf.playerId m.id (perfStatUpdate players perf)
  | none =>
    store ++
      [{ playerId := perf.playerId
         matchId := m.id
         minutesPlayed := perf.minutesPlayed
         goals := perf.goals
         assists := perf.assists
         yellowCards := perf.yellowCards
         redCards := perf.redCards
         rating := perf.rating
         playerOfMatch := perf.playerOfMatch
         positionsPlayed := lookupPositions players perf.playerId []
         substitutionsCount := 0
         injuries := [] }]

/-- Second loop of `createStatisticsFromMatch`: a team-sheet player without a
performance entry gets a zero-stat record carrying only ledger minutes and
current position; an existing record only has its minutes refreshed. -/
def processTeamSheetPlayer (players : List Player) (m : Match) (store : List Stat)
    (pid : Nat) : List Stat :=
  if (m.playerPerformances.find? (fun p => p.playerId == pid)).isSome then store
  else
    let minutesPlayed := m.getPlayerPlaytime pid
    match findStat store pid m.id with
    | some _ => updateFirstStat store pid m.id (tsStatUpdate minutesPlayed)
    | none =>
      store ++
        [{ playerId := pid
           matchId := m.id
           minutesPlayed := minutesPlayed
           goals := 0
           assists := 0
           yellowCards := 0
           redCards := 0
           rating := none
           playerOfMatch := false
           positionsPlayed :=
             match players.find? (fun p => p.id == pid) with
             | some p => [some (posToString p.position)]
             | none => [some "Unknown"]
           substitutionsCount := 0
           injuries := [] }]

/-- Statistics materialization for a completed match: upsert a record per
performance entry, then one per team-sheet player without a performance. -/
def createStatisticsFromMatch (players : List Player) (m : Match) (store : List Stat) :
    List Stat :=
  let s1 := m.playerPerformances.foldl (processPerformance players m) store
  m.teamSheet.foldl (processTeamSheetPlayer players m) s1

/-- One performance entry of the end-match request body (absent numeric
fields fall back to 0 via `||`, a zero rating collapses to null). -/
structure EndPerformanceInput where
  playerId : Option Nat
  goals : Option Nat
  assists : Option Nat
  yellowCards : Option Nat
  redCards : Option Nat
  rating : Option Nat
  playerOfMatch : Option Bool
deriving DecidableEq, Repr

/-- JavaScript `rating || null`: zero and absent both become null. -/
def ratingOrNull (o : Option Nat) : Option Nat :=
  match o with
  | some r => if r = 0 then none else some r
  | none => none

/-- Match-result fragment of the end-match request body. -/
structure EndMatchResultInput where
  result : Option String
  ourScore : Option Int
  opponentScore : Option Int
deriving DecidableEq, Repr

/-- Request body of PUT /api/matches/:id/end. -/
structure EndMatchRequest where
  matchResult : Option EndMatchResultInput
  playerPerformances : Option (List EndPerformanceInput)
deriving DecidableEq, Repr

/-- Merge loop of `endMatch`: upsert each submitted performance whose player
id is present, overwriting its minutes with the ledger value. -/
def applyPerformances (m : Match) (perfs : List EndPerformanceInput) : Match :=
  perfs.foldl (fun acc perf =>
    match perf.playerId with
    | none => acc
    | some pid =>
      acc.updatePlayerPerformance pid
        { goals := perf.goals.getD 0
          assists := perf.assists.getD 0
          yellowCards := perf.yellowCards.getD 0
          redCards := perf.redCards.getD 0
          rating := ratingOrNull perf.rating
          playerOfMatch := perf.playerOfMatch.getD false
          minutesPlayed := acc.getPlayerPlaytime pid }) m

/-- Membership test `['win', 'loss', 'draw'].includes(matchResult.result)`. -/
def validResultValue (o : Option String) : Bool :=
  match o with
  | some r => ["win", "loss", "draw"].contains r
  | none => false

/-- Persistence tail of a successful `endMatch`: save the completed match,
then materialize statistics. -/
def finishEndMatch (s : Store) (m : Match) : Store × Except ApiError Match :=
  let s1 := { s with matchDocs := saveMatch s.matchDocs m }
  let s2 := { s1 with stats := createStatisticsFromMatch s1.players m s1.stats }
  (s2, .ok m)

/-- Handler `endMatch` (PUT /api/matches/:id/end): finalize the ledger for
every fielded player, mark the match completed, merge submitted performances
(training needs no result; a match requires result in win/loss/draw and runs
`validateMatchResult` only when a performances array was submitted), then
save and materialize statistics.  Failure paths return before any save. -/
def endMatch (s : Store) (mid : Nat) (req : EndMatchRequest) (now : Int) :
    Store × Except ApiError Match :=
  match findMatch s mid with
  | none => (s, .error ⟨404, "Match not found"⟩)
  | some m =>
    if m.status ≠ Status.ongoing then
      (s, .error ⟨400, "Match is not currently ongoing"⟩)
    else
      let m2 := { finalizePlaytime m now with status := Status.completed }
      match m2.type with
      | MatchType.training =>
        let m3 := match req.playerPerformances with
                  | some l => applyPerformances m2 l
                  | none => m2
        finishEndMatch s m3
      | MatchType.match_ =>
        match req.matchResult with
        | none => (s, .error ⟨400, "Match result is required when ending a match"⟩)
        | some mr =>
          if ¬ validResultValue mr.result then
            (s, .error ⟨400, "Match result must be win, loss, or draw"⟩)
          else
            let newResult : MatchResult :=
              { result := mr.result.getD ""
                ourScore := mr.ourScore.getD 0
                opponentScore := mr.opponentScore.getD 0 }
            let m3 := { m2 with matchResult := some newResult }
            let m4 := match req.playerPerformances with
                      | some l => (applyPerformances m3 l).validateMatchResult
                      | none => m3
            finishEndMatch s m4

/-- Request body of PUT /api/schedules/:id, restricted to the fields the
schedule subsystem reads or writes; absent fields are left untouched by the
`findByIdAndUpdate` set. -/
structure UpdateScheduleBody where
  status : Option Status
  teamSheet : Option (List Nat)
  opponent : Option String
  notes : Option String
deriving DecidableEq, Repr

/-- Field-wise application of the update body onto the stored document. -/
def applyScheduleUpdate (m : Match) (b : UpdateScheduleBody) : Match :=
  { m with
    status := b.status.getD m.status
    teamSheet := b.teamSheet.getD m.teamSheet
    opponent := match b.opponent with | some o => some o | none => m.opponent
    notes := match b.notes with | some o => some o | none => m.notes }

/-- Handler `updateSchedule` (PUT /api/schedules/:id): rejects completed
matches, validates a submitted team sheet for availability, then applies the
body via `findByIdAndUpdate`.  Ongoing matches are accepted. -/
def updateSchedule (s : Store) (mid : Nat) (body : UpdateScheduleBody) :
    Store × Except ApiError Match :=
  match findMatch s mid with
  | none => (s, .error ⟨404, "Schedule not found"⟩)
  | some schedule =>
    if schedule.status = Status.completed then
      (s, .error ⟨400, "Cannot update completed matches"⟩)
    else
      let proceed :=
        let m' := applyScheduleUpdate schedule body
        (({ s with matchDocs := saveMatch s.matchDocs m' } : Store), (.ok m' : Except ApiError Match))
      match body.teamSheet with
      | some ts =>
        let players := s.players.filter (fun p => ts.contains p.id && p.availability)
        if players.length ≠ ts.length then
          (s, .error ⟨400, "Some players in the team sheet are not available"⟩)
        else proceed
      | none => proceed

/-- Handler `cancelSchedule` (DELETE /api/schedules/:id): completed and
ongoing matches are rejected; any other status is set to cancelled. -/
def cancelSchedule (s : Store) (mid : Nat) : Store × Except ApiError String :=
  match findMatch s mid with
  | none => (s, .error ⟨404, "Schedule not found"⟩)
  | some schedule =>
    if schedule.status = Status.completed then
      (s, .error ⟨400, "Cannot cancel completed matches"⟩)
    else if schedule.status = Status.ongoing then
      (s, .error ⟨400, "Cannot cancel ongoing matches. End the match first."⟩)
    else
      ({ s with matchDocs := saveMatch s.matchDocs { schedule with status := Status.cancelled } },
       .ok "Schedule cancelled successfully")

/-- Eligibility query of the team generator: available and at most lightly
injured. -/
def eligiblePlayers (players : List Player) : List Player :=
  players.filter (fun p => p.availability &&
    (p.injuryStatus == InjuryStatus.Healthy || p.injuryStatus == InjuryStatus.MinorInjury))

/-- Selection score of a player inside a position bucket: accumulated recent
minutes, plus a 10-point penalty for non-primary position unless pure
rest-priority rotation is requested. -/
def bucketKey (pt : Nat → Int) (prioritizeRest : Bool) (bucketPos : Pos) (p : Player) : Int :=
  if prioritizeRest then pt p.id
  else pt p.id + (if p.position = bucketPos then 0 else 1) * 10

/-- Ascending stable sort of a position bucket by selection score. -/
def sortBucket (pt : Nat → Int) (prioritizeRest : Bool) (bucketPos : Pos)
    (l : List Player) : List Player :=
  stableSort (fun a b =>
    decide (bucketKey pt prioritizeRest bucketPos a ≤ bucketKey pt prioritizeRest bucketPos b)) l

/-- Split of the formation string on the dash character, over the character
list (modelling `formation.split("-")`). -/
def splitCharsOnDash : List Char → List (List Char)
  | [] => [[]]
  | c :: rest =>
    let r := splitCharsOnDash rest
    if c = '-' then [] :: r
    else
      match r with
      | [] => [[c]]
      | g :: gs => (c :: g) :: gs

/-- Component read modelling `parseInt`: a fully numeric component parses, an
empty or non-numeric one yields NaN (modelled `none`: such a component
selects nothing and disables the fill step, matching NaN comparisons). -/
def parseNatChars (cs : List Char) : Option Nat :=
  match cs with
  | [] => none
  | _ =>
    if cs.all (fun c => c.isDigit) then
      some (cs.foldl (fun acc c => acc * 10 + (c.toNat - 48)) 0)
    else none

/-- Formation parsing: split on "-" and read each component. -/
def parseFormationComponents (formation : String) : List (Option Nat) :=
  (splitCharsOnDash formation.toList).map parseNatChars

/-- Heuristic `generateOptimalTeam`: bucket eligible players by position
(outfield buckets also admit preferred positions), sort each bucket by
selection score, take the per-position requirement from the front, fill any
shortfall from the not-yet-selected pool sorted by minutes, and cap the
result at 11 entries. -/
def generateOptimalTeam (availablePlayers : List Player) (pt : Nat → Int)
    (formation : String) (prioritizeRest : Bool) : List Player :=
  let comps := parseFormationComponents formation
  let defendersNeeded := comps.getD 0 none
  let midfieldersNeeded := comps.getD 1 none
  let forwardsNeeded := comps.getD 2 none
  let goalkeepersNeeded := 1
  let gkBucket := sortBucket pt prioritizeRest Pos.Goalkeeper
    (availablePlayers.filter (fun p => p.position == Pos.Goalkeeper))
  let defBucket := sortBucket pt prioritizeRest Pos.Defender
    (availablePlayers.filter (fun p =>
      p.position == Pos.Defender || p.preferredPositions.contains Pos.Defender))
  let midBucket := sortBucket pt prioritizeRest Pos.Midfielder
    (availablePlayers.filter (fun p =>
      p.position == Pos.Midfielder || p.preferredPositions.contains Pos.Midfielder))
  let fwdBucket := sortBucket pt prioritizeRest Pos.Forward
    (availablePlayers.filter (fun p =>
      p.position == Pos.Forward || p.preferredPositions.contains Pos.Forward))
  let selectedTeam := gkBucket.take goalkeepersNeeded ++
    defBucket.take (defendersNeeded.getD 0) ++
    midBucket.take (midfieldersNeeded.getD 0) ++
    fwdBucket.take (forwardsNeeded.getD 0)
  let totalNeeded := match defendersNeeded, midfieldersNeeded, forwardsNeeded with
    | some d, some mf, some fw => goalkeepersNeeded + d + mf + fw
    | _, _, _ => 0
  let remainingPlayers := stableSort (fun a b => decide (pt a.id ≤ pt b.id))
    (availablePlayers.filter (fun p => ¬ selectedTeam.contains p))
  (selectedTeam ++ remainingPlayers.take (totalNeeded - selectedTeam.length)).take 11

/-- Pointwise accumulation of one ledger entry into the recent-playtime
object; ids outside the object are ignored. -/
def bumpKey (g : Nat → Option Int) (k : Nat) (v : Int) : Nat → Option Int :=
  fun pid => if pid = k then (match g k with | some x => some (x + v) | none => none) else g pid

/-- Recent-minutes aggregation of `generateTeamSheet`: zero-initialize every
available player, then add every ledger entry of every recent match whose key
is tracked. -/
def aggregateRecentPlaytime (available : List Player) (recents : List Match) :
    Nat → Option Int :=
  let init : Nat → Option Int :=
    fun pid => if available.any (fun p => p.id == pid) then some 0 else none
  recents.foldl (fun f rm => rm.playtime.foldl (fun g kv => bumpKey g kv.1 kv.2) f) init

/-- Request body of POST /api/schedules/:id/generate-team. -/
structure GenerateTeamRequest where
  formationPreference : Option String
  prioritizeRest : Option Bool
deriving DecidableEq, Repr

/-- Thirty days in milliseconds. -/
def thirtyDaysMs : Int := 2592000000

/-- Handler `generateTeamSheet` (POST /api/schedules/:id/generate-team):
requires a scheduled match and at least 11 eligible players, aggregates
recent completed-match minutes, runs the generator and writes the resulting
ids into the team sheet. -/
def generateTeamSheet (s : Store) (mid : Nat) (req : GenerateTeamRequest) (now : Int) :
    Store × Except ApiError (Match × List Player) :=
  match findMatch s mid with
  | none => (s, .error ⟨404, "Schedule not found"⟩)
  | some m =>
    if m.status ≠ Status.scheduled then
      (s, .error ⟨400, "Can only generate team sheet for scheduled matches"⟩)
    else
      let availablePlayers := eligiblePlayers s.players
      if availablePlayers.length < 11 then
        (s, .error ⟨400, "Not enough available players for a full team"⟩)
      else
        let recentMatches := s.matchDocs.filter (fun rm =>
          decide (now - thirtyDaysMs ≤ rm.date) && decide (rm.date < m.date) &&
          rm.status == Status.completed)
        let playerPlaytime := aggregateRecentPlaytime availablePlayers recentMatches
        let formation := req.formationPreference.getD "4-4-2"
        let teamSheet := generateOptimalTeam availablePlayers
          (fun pid => (playerPlaytime pid).getD 0) formation (req.prioritizeRest.getD false)
        let m' := { m with teamSheet := teamSheet.map (·.id) }
        ({ s with matchDocs := saveMatch s.matchDocs m' }, .ok (m', teamSheet))

/-! Basic lemmas about the ledger map operations. -/

theorem mapGet_mapSet_self (m : Ledger) (k : Nat) (v : Int) :
    mapGet (mapSet m k v) k = some v := by
  induction m with
  | nil => simp [mapSet, mapGet]
  | cons e rest ih =>
    by_cases h : e.1 = k
    · simp [mapSet, mapGet, h]
    · simp [mapSet, mapGet, h, ih]

theorem mapGet_mapSet_ne (m : Ledger) {k k' : Nat} (v : Int) (h : k' ≠ k) :
    mapGet (mapSet m k v) k' = mapGet m k' := by
  induction m with
  | nil => simp [mapSet, mapGet, Ne.symm h]
  | cons e rest ih =>
    by_cases he : e.1 = k
    · simp [mapSet, mapGet, he, Ne.symm h]
    · simp [mapSet, mapGet, he, ih]

/-! Concrete fixtures used by the witness theorems. -/

/-- Fixture forward, id 1. -/
def fxPlayer1 : Player :=
  { id := 1, name := "Ada", jerseyNumber := 7, position := Pos.Forward,
    preferredPositions := [Pos.Forward], injuryStatus := InjuryStatus.Healthy,
    availability := true }

/-- Fixture midfielder, id 2. -/
def fxPlayer2 : Player :=
  { id := 2, name := "Bea", jerseyNumber := 8, position := Pos.Midfielder,
    preferredPositions := [Pos.Midfielder], injuryStatus := InjuryStatus.Healthy,
    availability := true }

/-- Fixture defender, id 3. -/
def fxPlayer3 : Player :=
  { id := 3, name := "Cam", jerseyNumber := 9, position := Pos.Defender,
    preferredPositions := [Pos.Defender], injuryStatus := InjuryStatus.Healthy,
    availability := true }

/-- Fixture ongoing match with players 2 and 3 fielded, created at time 0. -/
def fxSubMatch : Match :=
  { id := 1, date := 0, type := MatchType.match_, teamSheet := [2, 3], substitutions := [],
    playtime := [], status := Status.ongoing, duration := 90, opponent := none, venue := none,
    notes := none, matchResult := none, playerPerformances := [], createdAt := 0 }

/-- Fixture store for the substitution claims. -/
def fxSubStore : Store :=
  { players := [fxPlayer1, fxPlayer2, fxPlayer3], matchDocs := [fxSubMatch], stats := [] }

/-- Fixture substitution request: player 1 replaces player 2 at minute 30. -/
def fxSubReq : SubRequest :=
  { playerIn := 1, playerOut := 2, time := some 1800000, reason := none,
    injuryStatus := none, injuryNotes := none }

/-- C3: for every successful substitution on an ongoing match, the ledger
entry of playerOut becomes its previous value plus
floor((substitution time - match creation time) / 60000) where the
substitution time defaults to now, playerIn's entry is initialized to its
previous (or zero) value with no minutes added, and every other ledger entry
is unchanged. -/
theorem spec_C3_substitution_ledger (s : Store) (mid : Nat) (req : SubRequest) (now : Int)
    (m : Match) (hm : findMatch s mid = some m) (hst : m.status = Status.ongoing)
    (pIn pOut : Player)
    (hpi : findPlayer s req.playerIn = some pIn) (hpo : findPlayer s req.playerOut = some pOut)
    (hout : m.teamSheet.contains req.playerOut = true)
    (hin : m.teamSheet.contains req.playerIn = false) :
    ∃ m4, (makeSubstitution s mid req now).2 = .ok m4 ∧
      mapGet m4.playtime req.playerOut =
        some (m.getPlayerPlaytime req.playerOut +
          Int.fdiv ((req.time.getD now) - m.createdAt) (1000 * 60)) ∧
      mapGet m4.playtime req.playerIn = some (m.getPlayerPlaytime req.playerIn) ∧
      ∀ pid, pid ≠ req.playerOut → pid ≠ req.playerIn →
        mapGet m4.playtime pid = mapGet m.playtime pid := by
  have hne : req.playerIn ≠ req.playerOut := by
    intro h
    rw [h, hout] at hin
    exact Bool.noConfusion hin
  simp only [makeSubstitution, hm, hst, hpi, hpo, hout, hin]
  simp only [ne_eq, not_true_eq_false, if_false, Option.isNone_none, Option.isNone_some,
    or_self, Bool.false_eq_true, not_false_eq_true, if_true, ite_false, ite_true]
  refine ⟨_, rfl, ?_, ?_, ?_⟩
  · simp only [Match.updatePlayerPlaytime, Match.getPlayerPlaytime]
    rw [mapGet_mapSet_ne _ _ (Ne.symm hne), mapGet_mapSet_self]
  · simp only [Match.updatePlayerPlaytime, Match.getPlayerPlaytime]
    rw [mapGet_mapSet_self, mapGet_mapSet_ne _ _ hne]
  · intro pid hpo' hpi'
    simp only [Match.updatePlayerPlaytime, Match.getPlayerPlaytime]
    rw [mapGet_mapSet_ne _ _ hpi', mapGet_mapSet_ne _ _ hpo']

/-- C3 witness: the concrete substitution at minute 30 credits player 2 with
30 minutes, initializes player 1 at 0 and touches nothing else. -/
theorem spec_C3_substitution_ledger_witness :
    findMatch fxSubStore 1 = some fxSubMatch ∧
    fxSubMatch.status = Status.ongoing ∧
    fxSubMatch.teamSheet.contains 2 = true ∧
    fxSubMatch.teamSheet.contains 1 = false ∧
    ∃ m4, (makeSubstitution fxSubStore 1 fxSubReq 0).2 = .ok m4 ∧
      mapGet m4.playtime 2 =
        some (fxSubMatch.getPlayerPlaytime 2 +
          Int.fdiv ((fxSubReq.time.getD 0) - fxSubMatch.createdAt) (1000 * 60)) ∧
      mapGet m4.playtime 1 = some (fxSubMatch.getPlayerPlaytime 1) ∧
      ∀ pid, pid ≠ 2 → pid ≠ 1 →
        mapGet m4.playtime pid = mapGet fxSubMatch.playtime pid :=
  ⟨by decide, by decide, by decide, by decide,
    spec_C3_substitution_ledger fxSubStore 1 fxSubReq 0 fxSubMatch (by decide) (by decide)
      fxPlayer1 fxPlayer2 (by decide) (by decide) (by decide) (by decide)⟩

/-- C4: the substitution handler fails with the NotFound-class error (404)
when the match or a player is missing, the InvalidState-class error (400,
non-ongoing status) when the match is not ongoing, and the
ValidationFailure-class errors (400, field membership) when playerOut is off
the field or playerIn is already fielded; every failure returns the store
unchanged. -/
theorem spec_C4_substitution_errors (s : Store) (mid : Nat) (req : SubRequest) (now : Int) :
    (findMatch s mid = none →
      makeSubstitution s mid req now = (s, .error ⟨404, "Match not found"⟩)) ∧
    (∀ m, findMatch s mid = some m → m.status ≠ Status.ongoing →
      makeSubstitution s mid req now =
        (s, .error ⟨400, "Can only make substitutions during ongoing matches"⟩)) ∧
    (∀ m, findMatch s mid = some m → m.status = Status.ongoing →
      (findPlayer s req.playerIn = none ∨ findPlayer s req.playerOut = none) →
      makeSubstitution s mid req now = (s, .error ⟨404, "One or both players not found"⟩)) ∧
    (∀ m pIn pOut, findMatch s mid = some m → m.status = Status.ongoing →
      findPlayer s req.playerIn = some pIn → findPlayer s req.playerOut = some pOut →
      m.teamSheet.contains req.playerOut = false →
      makeSubstitution s mid req now =
        (s, .error ⟨400, "Player to be substituted is not currently on the field"⟩)) ∧
    (∀ m pIn pOut, findMatch s mid = some m → m.status = Status.ongoing →
      findPlayer s req.playerIn = some pIn → findPlayer s req.playerOut = some pOut →
      m.teamSheet.contains req.playerOut = true →
      m.teamSheet.contains req.playerIn = true →
      makeSubstitution s mid req now =
        (s, .error ⟨400, "Player coming in is already on the field"⟩)) := by
  refine ⟨?_, ?_, ?_, ?_, ?_⟩
  · intro h
    simp [makeSubstitution, h]
  · intro m hm hst
    simp [makeSubstitution, hm, hst]
  · intro m hm hst hp
    rcases hp with hp | hp <;> simp [makeSubstitution, hm, hst, hp]
  · intro m pIn pOut hm hst hpi hpo hout
    have hout' : req.playerOut ∉ m.teamSheet := by simpa using hout
    simp [makeSubstitution, hm, hst, hpi, hpo, hout']
  · intro m pIn pOut hm hst hpi hpo hout hin
    have hout' : req.playerOut ∈ m.teamSheet := by simpa using hout
    have hin' : req.playerIn ∈ m.teamSheet := by simpa using hin
    simp [makeSubstitution, hm, hst, hpi, hpo, hout', hin']

/-- Fixture scheduled match used by the error-path witnesses. -/
def fxScheduledMatch : Match :=
  { fxSubMatch with id := 2, status := Status.scheduled }

/-- Fixture store holding one scheduled and one ongoing match but only
players 2 and 3. -/
def fxErrStore : Store :=
  { players := [fxPlayer2, fxPlayer3], matchDocs := [fxSubMatch, fxScheduledMatch], stats := [] }

/-- C4 witness: each of the five failure branches evaluated at a concrete
store, request and time. -/
theorem spec_C4_substitution_errors_witness :
    (makeSubstitution fxErrStore 99 fxSubReq 0 =
      (fxErrStore, .error ⟨404, "Match not found"⟩)) ∧
    (makeSubstitution fxErrStore 2 fxSubReq 0 =
      (fxErrStore, .error ⟨400, "Can only make substitutions during ongoing matches"⟩)) ∧
    (makeSubstitution fxErrStore 1 fxSubReq 0 =
      (fxErrStore, .error ⟨404, "One or both players not found"⟩)) ∧
    (makeSubstitution fxSubStore 1 { fxSubReq with playerIn := 3, playerOut := 1 } 0 =
      (fxSubStore, .error ⟨400, "Player to be substituted is not currently on the field"⟩)) ∧
    (makeSubstitution fxSubStore 1 { fxSubReq with playerIn := 3, playerOut := 2 } 0 =
      (fxSubStore, .error ⟨400, "Player coming in is already on the field"⟩)) := by
  refine ⟨?_, ?_, ?_, ?_, ?_⟩
  · exact (spec_C4_substitution_errors fxErrStore 99 fxSubReq 0).1 (by decide)
  · exact (spec_C4_substitution_errors fxErrStore 2 fxSubReq 0).2.1 fxScheduledMatch
      (by decide) (by decide)
  · exact (spec_C4_substitution_errors fxErrStore 1 fxSubReq 0).2.2.1 fxSubMatch
      (by decide) (by decide) (Or.inl (by decide))
  · exact (spec_C4_substitution_errors fxSubStore 1 _ 0).2.2.2.1 fxSubMatch fxPlayer3 fxPlayer1
      (by decide) (by decide) (by decide) (by decide) (by decide)
  · exact (spec_C4_substitution_errors fxSubStore 1 _ 0).2.2.2.2 fxSubMatch fxPlayer3 fxPlayer2
      (by decide) (by decide) (by decide) (by decide) (by decide) (by decide)

/-- C3 is stated with `(1000 * 60)` exactly as the source writes the divisor;
this records that it equals the 60000 of the claim text. -/
theorem msPerMinute_eq : (1000 * 60 : Int) = 60000 := by norm_num

/-- C5: a successful substitution preserves the team-sheet length, puts
playerIn into the slot playerOut held, leaves every other slot unchanged, and
appends exactly one substitution record whose reason defaults to
"Tactical substitution" when none is supplied. -/
theorem spec_C5_teamsheet_swap (s : Store) (mid : Nat) (req : SubRequest) (now : Int)
    (m : Match) (hm : findMatch s mid = some m) (hst : m.status = Status.ongoing)
    (pIn pOut : Player)
    (hpi : findPlayer s req.playerIn = some pIn) (hpo : findPlayer s req.playerOut = some pOut)
    (hout : m.teamSheet.contains req.playerOut = true)
    (hin : m.teamSheet.contains req.playerIn = false) :
    ∃ m4, (makeSubstitution s mid req now).2 = .ok m4 ∧
      m4.teamSheet.length = m.teamSheet.length ∧
      m4.teamSheet[m.teamSheet.indexOf req.playerOut]? = some req.playerIn ∧
      (∀ i, i ≠ m.teamSheet.indexOf req.playerOut → m4.teamSheet[i]? = m.teamSheet[i]?) ∧
      m4.substitutions = m.substitutions ++
        [{ playerIn := req.playerIn
           playerOut := req.playerOut
           time := req.time.getD now
           reason := stringOrDefault req.reason "Tactical substitution" }] ∧
      (req.reason = none →
        stringOrDefault req.reason "Tactical substitution" = "Tactical substitution") := by
  have hidx : m.teamSheet.indexOf req.playerOut < m.teamSheet.length :=
    List.indexOf_lt_length.mpr (by simpa using hout)
  simp only [makeSubstitution, hm, hst, hpi, hpo, hout, hin]
  simp only [ne_eq, not_true_eq_false, if_false, Option.isNone_none, Option.isNone_some,
    or_self, Bool.false_eq_true, not_false_eq_true, if_true, ite_false, ite_true]
  refine ⟨_, rfl, ?_, ?_, ?_, ?_, ?_⟩
  · simp only [Match.updatePlayerPlaytime, List.length_set]
  · simp only [Match.updatePlayerPlaytime]
    exact List.getElem?_set_self hidx
  · intro i hi
    simp only [Match.updatePlayerPlaytime]
    exact List.getElem?_set_ne (Ne.symm hi)
  · simp only [Match.updatePlayerPlaytime]
  · intro h
    simp [h, stringOrDefault]

/-- C5 witness: the concrete substitution of player 1 for player 2 swaps the
first slot in place and appends the defaulted log record. -/
theorem spec_C5_teamsheet_swap_witness :
    findMatch fxSubStore 1 = some fxSubMatch ∧
    ∃ m4, (makeSubstitution fxSubStore 1 fxSubReq 0).2 = .ok m4 ∧
      m4.teamSheet.length = fxSubMatch.teamSheet.length ∧
      m4.teamSheet[fxSubMatch.teamSheet.indexOf 2]? = some 1 ∧
      (∀ i, i ≠ fxSubMatch.teamSheet.indexOf 2 →
        m4.teamSheet[i]? = fxSubMatch.teamSheet[i]?) ∧
      m4.substitutions = fxSubMatch.substitutions ++
        [{ playerIn := 1
           playerOut := 2
           time := fxSubReq.time.getD 0
           reason := stringOrDefault fxSubReq.reason "Tactical substitution" }] ∧
      (fxSubReq.reason = none →
        stringOrDefault fxSubReq.reason "Tactical substitution" = "Tactical substitution") :=
  ⟨by decide,
    spec_C5_teamsheet_swap fxSubStore 1 fxSubReq 0 fxSubMatch (by decide) (by decide)
      fxPlayer1 fxPlayer2 (by decide) (by decide) (by decide) (by decide)⟩

/-! Shape lemmas: the playtime finalization loop only rewrites the ledger,
the performance merge loop only rewrites the performance list, and result
validation only rewrites the result subdocument. -/

theorem foldl_finalizeStep_shape (now : Int) (l : List Nat) (acc : Match) :
    ∃ pt, l.foldl (finalizeStep now) acc = { acc with playtime := pt } := by
  induction l generalizing acc with
  | nil => exact ⟨acc.playtime, rfl⟩
  | cons p t ih =>
    obtain ⟨pt, hpt⟩ := ih (finalizeStep now acc p)
    exact ⟨pt, by rw [List.foldl_cons, hpt]; rfl⟩

theorem finalizePlaytime_shape (m : Match) (now : Int) :
    ∃ pt, finalizePlaytime m now = { m with playtime := pt } :=
  foldl_finalizeStep_shape now m.teamSheet m

theorem finalizePlaytime_type (m : Match) (now : Int) :
    (finalizePlaytime m now).type = m.type := by
  obtain ⟨pt, h⟩ := finalizePlaytime_shape m now
  rw [h]

theorem updatePlayerPerformance_shape (m : Match) (pid : Nat) (d : PerfData) :
    ∃ pp, m.updatePlayerPerformance pid d = { m with playerPerformances := pp } := by
  unfold Match.updatePlayerPerformance
  split
  · exact ⟨_, rfl⟩
  · exact ⟨_, rfl⟩

theorem applyPerformances_shape (m : Match) (l : List EndPerformanceInput) :
    ∃ pp, applyPerformances m l = { m with playerPerformances := pp } := by
  unfold applyPerformances
  induction l generalizing m with
  | nil => exact ⟨m.playerPerformances, rfl⟩
  | cons e t ih =>
    rw [List.foldl_cons]
    cases he : e.playerId with
    | none =>
      obtain ⟨pp, hpp⟩ := ih m
      exact ⟨pp, by simp only [he]; exact hpp⟩
    | some pid =>
      obtain ⟨pp1, hpp1⟩ := updatePlayerPerformance_shape m pid
        { goals := e.goals.getD 0
          assists := e.assists.getD 0
          yellowCards := e.yellowCards.getD 0
          redCards := e.redCards.getD 0
          rating := ratingOrNull e.rating
          playerOfMatch := e.playerOfMatch.getD false
          minutesPlayed := m.getPlayerPlaytime pid }
      obtain ⟨pp2, hpp2⟩ := ih (m.updatePlayerPerformance pid _)
      refine ⟨pp2, ?_⟩
      simp only [he]
      rw [hpp2, hpp1]

theorem validateMatchResult_shape (m : Match) :
    ∃ r, m.validateMatchResult = { m with matchResult := r } := by
  unfold Match.validateMatchResult
  cases hmr : m.matchResult with
  | none => exact ⟨m.matchResult, rfl⟩
  | some r0 =>
    by_cases hty : m.type ≠ MatchType.match_
    · refine ⟨m.matchResult, ?_⟩
      show (if m.type ≠ MatchType.match_ then m else _) = _
      rw [if_pos hty]
    · refine ⟨some { r0 with ourScore := (m.calculateTeamGoals : Int) }, ?_⟩
      show (if m.type ≠ MatchType.match_ then m else _) = _
      rw [if_neg hty]

/-- Lookup after save: writing back a loaded document with the looked-up id
makes the next lookup return it. -/
theorem find?_saveMatch (ms : List Match) (mid : Nat) (m m' : Match)
    (hfind : ms.find? (fun x => x.id == mid) = some m) (hid : m'.id = mid) :
    (saveMatch ms m').find? (fun x => x.id == mid) = some m' := by
  induction ms with
  | nil => simp [List.find?] at hfind
  | cons a t ih =>
    by_cases ha : a.id = mid
    · simp [saveMatch, List.find?, ha, hid]
    · have hfind' : t.find? (fun x => x.id == mid) = some m := by
        rw [List.find?_cons_of_neg] at hfind
        · exact hfind
        · simp [ha]
      have hrec := ih hfind'
      show ((a :: t).map (fun x => if x.id == m'.id then m' else x)).find?
        (fun x => x.id == mid) = some m'
      rw [List.map_cons]
      rw [List.find?_cons_of_neg]
      · exact hrec
      · simp [ha, hid]

theorem finalizePlaytime_id (m : Match) (now : Int) :
    (finalizePlaytime m now).id = m.id := by
  obtain ⟨pt, h⟩ := finalizePlaytime_shape m now
  rw [h]

/-- Explicit form of `validateMatchResult` on a match of type "match" with a
result present: only `ourScore` is overwritten, with the summed goals. -/
theorem validateMatchResult_ourScore (m : Match) (r : MatchResult)
    (hmr : m.matchResult = some r) (hty : m.type = MatchType.match_) :
    m.validateMatchResult =
      { m with matchResult := some { r with ourScore := (m.calculateTeamGoals : Int) } } := by
  unfold Match.validateMatchResult
  rw [hmr]
  simp [hty]

/-- Success tail of `endMatch` on a match-type document: the saved match is
returned and findable, completed, and carries `ourScore` equal to its summed
performance goals. -/
theorem endSuccess_props (s : Store) (mid : Nat) (m mm : Match) (newRes : MatchResult)
    (l : List EndPerformanceInput)
    (hfind0 : s.matchDocs.find? (fun x => x.id == mid) = some m)
    (hmmr : mm.matchResult = some newRes) (hmty : mm.type = MatchType.match_)
    (hmst : mm.status = Status.completed) (hmid : mm.id = mid) :
    ∃ m', (finishEndMatch s ((applyPerformances mm l).validateMatchResult)).2 = .ok m' ∧
      findMatch (finishEndMatch s ((applyPerformances mm l).validateMatchResult)).1 mid = some m' ∧
      m'.status = Status.completed ∧
      ∃ res, m'.matchResult = some res ∧ res.ourScore = (m'.calculateTeamGoals : Int) := by
  obtain ⟨pp, happ⟩ := applyPerformances_shape mm l
  rw [happ]
  have hBmr : ({ mm with playerPerformances := pp } : Match).matchResult = some newRes := hmmr
  have hBty : ({ mm with playerPerformances := pp } : Match).type = MatchType.match_ := hmty
  rw [validateMatchResult_ourScore _ _ hBmr hBty]
  refine ⟨_, rfl, ?_, hmst, ⟨_, rfl, rfl⟩⟩
  exact find?_saveMatch s.matchDocs mid m _ hfind0 hmid

/-- Fixture ongoing match-type match with an empty team sheet. -/
def fxEndMatch : Match :=
  { id := 1, date := 0, type := MatchType.match_, teamSheet := [], substitutions := [],
    playtime := [], status := Status.ongoing, duration := 90, opponent := none, venue := none,
    notes := none, matchResult := none, playerPerformances := [], createdAt := 0 }

/-- Fixture store holding only the ongoing match-type match. -/
def fxEndStore : Store :=
  { players := [], matchDocs := [fxEndMatch], stats := [] }

/-- Fixture end-match request carrying a result with a caller-supplied score
of 10 and no performances array. -/
def fxEndReqNoPerfs : EndMatchRequest :=
  { matchResult := some { result := some "win", ourScore := some 10, opponentScore := some 0 },
    playerPerformances := none }

/-- Fixture end-match request carrying the same result plus a performances
array totalling 3 goals. -/
def fxEndReqPerfs : EndMatchRequest :=
  { matchResult := some { result := some "win", ourScore := some 10, opponentScore := some 0 },
    playerPerformances := some
      [{ playerId := some 7, goals := some 2, assists := none, yellowCards := none,
         redCards := none, rating := none, playerOfMatch := none },
       { playerId := some 8, goals := some 1, assists := none, yellowCards := none,
         redCards := none, rating := none, playerOfMatch := none }] }

/-- C1 counterexample: ending a match-type match while omitting the
playerPerformances array persists the caller-supplied ourScore of 10 even
though the summed performance goals are 0, so the claimed invariant fails as
stated (`validateMatchResult` runs only when a performances array is
submitted). -/
theorem spec_C1_counterexample :
    ∃ m', findMatch (endMatch fxEndStore 1 fxEndReqNoPerfs 0).1 1 = some m' ∧
      m'.status = Status.completed ∧ m'.type = MatchType.match_ ∧
      m'.matchResult.map MatchResult.ourScore = some 10 ∧
      (m'.calculateTeamGoals : Int) = 0 ∧ (10 : Int) ≠ 0 :=
  ⟨{ fxEndMatch with
      status := Status.completed
      matchResult := some { result := "win", ourScore := 10, opponentScore := 0 } },
    by decide, by decide, by decide, by decide, by decide, by decide⟩

/-- C1 as amended: whenever the end-match request supplies a
playerPerformances array (of any content), the persisted completed match
carries `ourScore` equal to the sum of goals over its merged performance
entries, regardless of the caller-supplied score. -/
theorem spec_C1_our_score_recomputed (s : Store) (mid : Nat) (req : EndMatchRequest)
    (now : Int) (m : Match) (mr : EndMatchResultInput) (l : List EndPerformanceInput)
    (hm : findMatch s mid = some m) (hst : m.status = Status.ongoing)
    (hty : m.type = MatchType.match_)
    (hmr : req.matchResult = some mr) (hval : validResultValue mr.result = true)
    (hperfs : req.playerPerformances = some l) :
    ∃ m', (endMatch s mid req now).2 = .ok m' ∧
      findMatch (endMatch s mid req now).1 mid = some m' ∧
      m'.status = Status.completed ∧
      ∃ res, m'.matchResult = some res ∧ res.ourScore = (m'.calculateTeamGoals : Int) := by
  have hfind0 : s.matchDocs.find? (fun x => x.id == mid) = some m := by
    simpa [findMatch] using hm
  have hid : m.id = mid := by
    have h1 := List.find?_some hfind0
    simpa using h1
  have hend : endMatch s mid req now =
      finishEndMatch s ((applyPerformances
        { { finalizePlaytime m now with status := Status.completed } with
            matchResult := some
              { result := mr.result.getD ""
                ourScore := mr.ourScore.getD 0
                opponentScore := mr.opponentScore.getD 0 } } l).validateMatchResult) := by
    simp only [endMatch, hm, hst, finalizePlaytime_type, hty, hmr, hval, hperfs]
    simp [hst]
  rw [hend]
  exact endSuccess_props s mid m _ _ l hfind0 rfl
    (by show (finalizePlaytime m now).type = _; rw [finalizePlaytime_type]; exact hty)
    rfl
    (by show (finalizePlaytime m now).id = mid; rw [finalizePlaytime_id]; exact hid)

/-- C1 witness: the concrete request with performances totalling 3 goals and
a caller-supplied score of 10 ends with a findable completed match whose
ourScore equals its summed goals. -/
theorem spec_C1_our_score_recomputed_witness :
    findMatch fxEndStore 1 = some fxEndMatch ∧
    validResultValue (some "win") = true ∧
    ∃ m', (endMatch fxEndStore 1 fxEndReqPerfs 0).2 = .ok m' ∧
      findMatch (endMatch fxEndStore 1 fxEndReqPerfs 0).1 1 = some m' ∧
      m'.status = Status.completed ∧
      ∃ res, m'.matchResult = some res ∧ res.ourScore = (m'.calculateTeamGoals : Int) :=
  ⟨by decide, by decide,
    spec_C1_our_score_recomputed fxEndStore 1 fxEndReqPerfs 0 fxEndMatch _ _
      (by decide) (by decide) (by decide) rfl (by decide) rfl⟩

/-- C8: ending an ongoing match-type match without a result, or with a
result outside win/loss/draw, fails with the ValidationFailure-class 400
error and returns the store unchanged (the persisted match keeps its ongoing
status, ledger and performances because no save happens). -/
theorem spec_C8_end_match_errors (s : Store) (mid : Nat) (req : EndMatchRequest) (now : Int)
    (m : Match) (hm : findMatch s mid = some m) (hst : m.status = Status.ongoing)
    (hty : m.type = MatchType.match_) :
    (req.matchResult = none →
      endMatch s mid req now =
        (s, .error ⟨400, "Match result is required when ending a match"⟩)) ∧
    (∀ mr, req.matchResult = some mr → validResultValue mr.result = false →
      endMatch s mid req now =
        (s, .error ⟨400, "Match result must be win, loss, or draw"⟩)) := by
  constructor
  · intro hmr
    simp only [endMatch, hm, hst, finalizePlaytime_type, hty, hmr]
    simp [hst]
  · intro mr hmr hval
    simp only [endMatch, hm, hst, finalizePlaytime_type, hty, hmr]
    simp [hst, hval]

/-- C8 witness: both rejection branches evaluated at the concrete ongoing
match, leaving the store (hence the persisted match) untouched. -/
theorem spec_C8_end_match_errors_witness :
    (endMatch fxEndStore 1 { matchResult := none, playerPerformances := none } 0 =
      (fxEndStore, .error ⟨400, "Match result is required when ending a match"⟩)) ∧
    (endMatch fxEndStore 1
        { matchResult := some { result := some "victory", ourScore := none, opponentScore := none }
          playerPerformances := none } 0 =
      (fxEndStore, .error ⟨400, "Match result must be win, loss, or draw"⟩)) :=
  ⟨(spec_C8_end_match_errors fxEndStore 1 _ 0 fxEndMatch (by decide) (by decide) (by decide)).1
      rfl,
    (spec_C8_end_match_errors fxEndStore 1 _ 0 fxEndMatch (by decide) (by decide) (by decide)).2
      _ rfl (by decide)⟩

/-! Lemmas for the match-start paths. -/

theorem foldl_initZero_shape (l : List Nat) (acc : Match) :
    ∃ pt, l.foldl (fun a p => a.updatePlayerPlaytime p 0) acc = { acc with playtime := pt } := by
  induction l generalizing acc with
  | nil => exact ⟨acc.playtime, rfl⟩
  | cons p t ih =>
    obtain ⟨pt, hpt⟩ := ih (acc.updatePlayerPlaytime p 0)
    exact ⟨pt, by rw [List.foldl_cons, hpt]; rfl⟩

theorem foldl_initZero_mapGet_notmem (l : List Nat) (acc : Match) (pid : Nat) (h : pid ∉ l) :
    mapGet (l.foldl (fun a p => a.updatePlayerPlaytime p 0) acc).playtime pid =
      mapGet acc.playtime pid := by
  induction l generalizing acc with
  | nil => rfl
  | cons a t ih =>
    rw [List.foldl_cons]
    have ha : pid ≠ a := fun he => h (he ▸ List.mem_cons_self a t)
    have ht : pid ∉ t := fun he => h (List.mem_cons_of_mem a he)
    rw [ih _ ht]
    exact mapGet_mapSet_ne _ _ ha

theorem foldl_initZero_mapGet (l : List Nat) (acc : Match) (pid : Nat) (h : pid ∈ l) :
    mapGet (l.foldl (fun a p => a.updatePlayerPlaytime p 0) acc).playtime pid = some 0 := by
  induction l generalizing acc with
  | nil => cases h
  | cons a t ih =>
    rw [List.foldl_cons]
    by_cases hp : pid ∈ t
    · exact ih _ hp
    · have hpa : pid = a := by
        rcases List.mem_cons.mp h with h1 | h1
        · exact h1
        · exact absurd h1 hp
      subst hpa
      rw [foldl_initZero_mapGet_notmem t _ pid hp]
      exact mapGet_mapSet_self _ _ _

theorem length_filter_ne_lt (l : List Nat) (a : Nat) (ha : a ∈ l) :
    (l.filter (fun x => x ≠ a)).length < l.length := by
  induction l with
  | nil => cases ha
  | cons b t ih =>
    by_cases hb : b = a
    · subst hb
      simp only [List.filter_cons]
      have : (decide (b ≠ b)) = false := by simp
      rw [this]
      simp only [List.length_cons]
      exact Nat.lt_succ_of_le (List.length_filter_le _ t)
    · have hat : a ∈ t := by
        rcases List.mem_cons.mp ha with h1 | h1
        · exact absurd h1.symm hb
        · exact h1
      simp only [List.filter_cons]
      have : (decide (b ≠ a)) = true := by simp [hb]
      rw [this]
      simpa using Nat.succ_lt_succ (ih hat)

/-- Listing a player for whom no available player document exists makes the
availability count check of `startMatch` fail. -/
theorem startMatch_unavailable (s : Store) (req : StartMatchRequest) (newId : Nat) (now : Int)
    (l : List Nat) (pid0 : Nat) (hts : req.teamSheet = some l)
    (hnd : (s.players.map Player.id).Nodup) (hmem : pid0 ∈ l)
    (hbad : ∀ p ∈ s.players, p.id = pid0 → p.availability = false) :
    startMatch s req newId now =
      (s, .error ⟨400, "Some players in the team sheet are not available"⟩) := by
  have hlen :
      (s.players.filter (fun p => l.contains p.id && p.availability)).length ≠ l.length := by
    set found := s.players.filter (fun p => l.contains p.id && p.availability) with hfound
    have hsub : found.Sublist s.players := List.filter_sublist s.players
    have hndf : (found.map Player.id).Nodup := (hsub.map Player.id).nodup hnd
    have hss : (found.map Player.id) ⊆ l.filter (fun x => x ≠ pid0) := by
      intro q hq
      rcases List.mem_map.mp hq with ⟨p, hp, rfl⟩
      have hp' := List.of_mem_filter hp
      have hcon : l.contains p.id = true := (Bool.and_eq_true _ _ |>.mp hp').1
      have hav : p.availability = true := (Bool.and_eq_true _ _ |>.mp hp').2
      have hmem' : p.id ∈ l := by simpa using hcon
      have hne : p.id ≠ pid0 := by
        intro he
        have hpmem : p ∈ s.players := List.mem_of_mem_filter hp
        have := hbad p hpmem he
        rw [hav] at this
        exact Bool.noConfusion this
      exact List.mem_filter.mpr ⟨hmem', by simp [hne]⟩
    have h1 : (found.map Player.id).length ≤ (l.filter (fun x => x ≠ pid0)).length :=
      (hndf.subperm hss).length_le
    have h2 : (l.filter (fun x => x ≠ pid0)).length < l.length := length_filter_ne_lt l pid0 hmem
    have h3 : found.length = (found.map Player.id).length := (List.length_map _ _).symm
    omega
  have hpos : l.length > 0 := List.length_pos_of_mem hmem
  simp only [startMatch, hts]
  rw [if_pos hpos, if_pos hlen]

/-- Successful `startMatch` yields an ongoing match with a zero ledger entry
for every listed player. -/
theorem startMatch_ok_props (s : Store) (req : StartMatchRequest) (newId : Nat) (now : Int)
    (l : List Nat) (hts : req.teamSheet = some l) :
    ∀ m', (startMatch s req newId now).2 = .ok m' →
      m'.status = Status.ongoing ∧ ∀ pid ∈ l, mapGet m'.playtime pid = some 0 := by
  intro m' h
  simp only [startMatch, hts] at h
  by_cases hpos : l.length > 0
  · rw [if_pos hpos] at h
    by_cases hbad :
        (s.players.filter (fun p => l.contains p.id && p.availability)).length ≠ l.length
    · rw [if_pos hbad] at h
      exact absurd h (by simp)
    · rw [if_neg hbad] at h
      simp only [createAndInitMatch, hts, Option.getD_some] at h
      rw [if_pos hpos] at h
      have hx := Except.ok.inj h
      subst hx
      constructor
      · obtain ⟨pt, hsh⟩ := foldl_initZero_shape l _
        rw [hsh]
      · intro pid hpid
        exact foldl_initZero_mapGet l _ pid hpid
  · rw [if_neg hpos] at h
    simp only [createAndInitMatch, hts, Option.getD_some] at h
    rw [if_neg hpos] at h
    have hx := Except.ok.inj h
    subst hx
    have hl : l = [] := List.eq_nil_of_length_eq_zero (Nat.eq_zero_of_not_pos hpos)
    subst hl
    exact ⟨rfl, fun pid hpid => absurd hpid (List.not_mem_nil pid)⟩

/-- Case analysis of `startExistingMatch`: a non-scheduled match is rejected;
a scheduled match is saved back with only its status changed to ongoing. -/
theorem startExistingMatch_cases (s : Store) (mid : Nat) (m : Match)
    (hm : findMatch s mid = some m) :
    (m.status ≠ Status.scheduled → startExistingMatch s mid =
      (s, .error ⟨400, "Cannot start match with status: " ++ statusToString m.status ++
        ". Only scheduled matches can be started."⟩)) ∧
    (m.status = Status.scheduled → startExistingMatch s mid =
      ({ s with matchDocs := saveMatch s.matchDocs { m with status := Status.ongoing } },
        .ok { m with status := Status.ongoing })) := by
  constructor <;> intro h <;> simp [startExistingMatch, hm, h]

/-- Fixture defender, id 5. -/
def fxPlayer5 : Player :=
  { id := 5, name := "Eli", jerseyNumber := 5, position := Pos.Defender,
    preferredPositions := [Pos.Defender], injuryStatus := InjuryStatus.Healthy,
    availability := true }

/-- Fixture scheduled match fielding player 5, with an empty ledger. -/
def fxStartMatch : Match :=
  { id := 3, date := 0, type := MatchType.match_, teamSheet := [5], substitutions := [],
    playtime := [], status := Status.scheduled, duration := 90, opponent := none, venue := none,
    notes := none, matchResult := none, playerPerformances := [], createdAt := 0 }

/-- Fixture store with the scheduled match and available player 5. -/
def fxStartStore : Store :=
  { players := [fxPlayer5], matchDocs := [fxStartMatch], stats := [] }

/-- Fixture store where player 5 is unavailable. -/
def fxStartStoreUnavail : Store :=
  { players := [{ fxPlayer5 with availability := false }], matchDocs := [], stats := [] }

/-- Fixture request starting a new training session fielding player 5. -/
def fxStartReq : StartMatchRequest :=
  { teamSheet := some [5], type := MatchType.training, date := 0, duration := none,
    opponent := none, venue := none, notes := none }

/-- The match `startMatch` produces for `fxStartReq` under id 9 at time 0. -/
def fxStartedMatch : Match :=
  { id := 9, date := 0, type := MatchType.training, teamSheet := [5], substitutions := [],
    playtime := [(5, 0)], status := Status.ongoing, duration := 90, opponent := none,
    venue := none, notes := none, matchResult := none, playerPerformances := [], createdAt := 0 }

/-- C6 counterexample: starting the existing scheduled match with team sheet
[5] succeeds and transitions to ongoing, but the resulting ledger has no
entry for player 5 at all, so "a ledger entry with value 0 exists for every
player in the team sheet" fails on this start path. -/
theorem spec_C6_counterexample :
    ∃ m', (startExistingMatch fxStartStore 3).2 = .ok m' ∧
      m'.status = Status.ongoing ∧ 5 ∈ m'.teamSheet ∧ mapGet m'.playtime 5 = none :=
  ⟨{ fxStartMatch with status := Status.ongoing },
    rfl, by decide, by decide, by decide⟩

/-- C6 as amended: starting an existing match requires scheduled status (else
a validation error naming the status) and on success only flips the status to
ongoing without touching the ledger; starting a new match with an inline team
sheet fails with a validation error when a listed player is unavailable or
missing, and on success produces an ongoing match with a zero ledger entry
for every listed player. -/
theorem spec_C6_start_semantics :
    (∀ s mid m, findMatch s mid = some m →
      (m.status ≠ Status.scheduled → startExistingMatch s mid =
        (s, .error ⟨400, "Cannot start match with status: " ++ statusToString m.status ++
          ". Only scheduled matches can be started."⟩)) ∧
      (m.status = Status.scheduled → startExistingMatch s mid =
        ({ s with matchDocs := saveMatch s.matchDocs { m with status := Status.ongoing } },
          .ok { m with status := Status.ongoing }))) ∧
    (∀ s req newId now l pid0, req.teamSheet = some l →
      (s.players.map Player.id).Nodup → pid0 ∈ l →
      (∀ p ∈ s.players, p.id = pid0 → p.availability = false) →
      startMatch s req newId now =
        (s, .error ⟨400, "Some players in the team sheet are not available"⟩)) ∧
    (∀ s req newId now l, req.teamSheet = some l →
      ∀ m', (startMatch s req newId now).2 = .ok m' →
        m'.status = Status.ongoing ∧ ∀ pid ∈ l, mapGet m'.playtime pid = some 0) :=
  ⟨fun s mid m hm => startExistingMatch_cases s mid m hm,
   fun s req newId now l pid0 hts hnd hmem hbad =>
     startMatch_unavailable s req newId now l pid0 hts hnd hmem hbad,
   fun s req newId now l hts => startMatch_ok_props s req newId now l hts⟩

/-- C6 witness: all four branches evaluated concretely — rejection of the
ongoing match, plain status flip for the scheduled one, rejection of the
unavailable player, and the started training session with ledger entry 0 for
player 5. -/
theorem spec_C6_start_semantics_witness :
    (startExistingMatch fxSubStore 1 =
      (fxSubStore, .error ⟨400,
        "Cannot start match with status: ongoing. Only scheduled matches can be started."⟩)) ∧
    (startExistingMatch fxStartStore 3 =
      ({ fxStartStore with
          matchDocs := saveMatch fxStartStore.matchDocs
            { fxStartMatch with status := Status.ongoing } },
        .ok { fxStartMatch with status := Status.ongoing })) ∧
    (startMatch fxStartStoreUnavail fxStartReq 9 0 =
      (fxStartStoreUnavail, .error ⟨400, "Some players in the team sheet are not available"⟩)) ∧
    fxStartedMatch.status = Status.ongoing ∧
    mapGet fxStartedMatch.playtime 5 = some 0 :=
  ⟨(spec_C6_start_semantics.1 fxSubStore 1 fxSubMatch (by decide)).1 (by decide),
   (spec_C6_start_semantics.1 fxStartStore 3 fxStartMatch (by decide)).2 (by decide),
   spec_C6_start_semantics.2.1 fxStartStoreUnavail fxStartReq 9 0 [5] 5 rfl
     (by decide) (by decide) (by decide),
   (spec_C6_start_semantics.2.2 fxStartStore fxStartReq 9 0 [5] rfl fxStartedMatch rfl).1,
   (spec_C6_start_semantics.2.2 fxStartStore fxStartReq 9 0 [5] rfl fxStartedMatch rfl).2
     5 (by decide)⟩

/-- C10: the playtime query never persists anything — its store component is
returned unchanged for every input — while for an ongoing match every row of
the report carries the recomputed-and-accumulated minutes of the in-memory
copy of the ledger (the `finalizePlaytime` projection) rather than a stored
update. -/
theorem spec_C10_playtime_query_pure (s : Store) (mid : Nat) (now : Int) :
    (getPlaytimeStats s mid now).1 = s ∧
    (∀ m, findMatch s mid = some m → m.status = Status.ongoing →
      ∀ resp, (getPlaytimeStats s mid now).2 = .ok resp →
        ∀ e ∈ resp.playtimeStats,
          e.minutesPlayed = (finalizePlaytime m now).getPlayerPlaytime e.playerId ∧
          e.isCurrentlyPlaying = (finalizePlaytime m now).teamSheet.contains e.playerId) := by
  constructor
  · cases h : findMatch s mid <;> simp [getPlaytimeStats, h]
  · intro m hm hst resp hresp e he
    simp only [getPlaytimeStats, hm, hst, if_pos] at hresp
    have hx := Except.ok.inj hresp
    subst hx
    simp only [PlaytimeStatsResponse.mk.injEq] at he ⊢
    have he' := (mem_stableSort _ _ _).mp he
    have he2 : ∃ p, (p ∈ s.players ∧ ∃ x, (p.id, x) ∈ (finalizePlaytime m now).playtime) ∧
        ({ playerId := p.id
           minutesPlayed := (finalizePlaytime m now).getPlayerPlaytime p.id
           isCurrentlyPlaying := decide (p.id ∈ (finalizePlaytime m now).teamSheet) } :
          PlaytimeEntry) = e := by
      simpa using he'
    rcases he2 with ⟨p, hp, rfl⟩
    exact ⟨rfl, by simp⟩

/-- The report row for player 2 at time 600000 in the fixture store. -/
def fxPlaytimeEntry2 : PlaytimeEntry :=
  { playerId := 2, minutesPlayed := 10, isCurrentlyPlaying := true }

/-- The full playtime response of the fixture store at time 600000. -/
def fxPlaytimeResp : PlaytimeStatsResponse :=
  { status := Status.ongoing
    playtimeStats :=
      [fxPlaytimeEntry2, { playerId := 3, minutesPlayed := 10, isCurrentlyPlaying := true }]
    fairPlay :=
      { averageMinutes := 10, maxMinutes := 10, minMinutes := 10, difference := 0, isFair := true }
    totalPlayersUsed := 2 }

/-- C10 witness: querying the ongoing fixture match at minute 10 leaves the
store untouched and reports player 2 with the recomputed 10 minutes. -/
theorem spec_C10_playtime_query_pure_witness :
    (getPlaytimeStats fxSubStore 1 600000).1 = fxSubStore ∧
    findMatch fxSubStore 1 = some fxSubMatch ∧
    fxPlaytimeEntry2.minutesPlayed =
      (finalizePlaytime fxSubMatch 600000).getPlayerPlaytime fxPlaytimeEntry2.playerId ∧
    fxPlaytimeEntry2.isCurrentlyPlaying =
      (finalizePlaytime fxSubMatch 600000).teamSheet.contains fxPlaytimeEntry2.playerId :=
  ⟨(spec_C10_playtime_query_pure fxSubStore 1 600000).1,
   by decide,
   ((spec_C10_playtime_query_pure fxSubStore 1 600000).2 fxSubMatch (by decide) (by decide)
      fxPlaytimeResp (by rfl) fxPlaytimeEntry2 (by decide)).1,
   ((spec_C10_playtime_query_pure fxSubStore 1 600000).2 fxSubMatch (by decide) (by decide)
      fxPlaytimeResp (by rfl) fxPlaytimeEntry2 (by decide)).2⟩

/-- Fixture completed match, id 4. -/
def fxCompletedMatch : Match :=
  { fxSubMatch with id := 4, status := Status.completed }

/-- Fixture cancelled match, id 5. -/
def fxCancelledMatch : Match :=
  { fxSubMatch with id := 5, status := Status.cancelled }

/-- Fixture store with an ongoing (1), completed (4) and cancelled (5) match. -/
def fxC9Store : Store :=
  { players := [], matchDocs := [fxSubMatch, fxCompletedMatch, fxCancelledMatch], stats := [] }

/-- Fixture update body that only sets the status to cancelled. -/
def fxCancelBody : UpdateScheduleBody :=
  { status := some Status.cancelled, teamSheet := none, opponent := none, notes := none }

/-- C9 evaluation: the completed match rejects both update and cancel, and
the cancel operation rejects the ongoing match — but the general update
operation accepts the ongoing match and persists status cancelled (the
failing input), and the cancel operation also accepts an already-cancelled
match; so an ongoing match CAN transition directly to cancelled through
`updateSchedule`, contradicting the claimed state machine (and the handler's
own stated intent of preventing updates to ongoing matches). -/
theorem spec_C9_lifecycle_evaluation :
    (updateSchedule fxC9Store 4 fxCancelBody =
      (fxC9Store, .error ⟨400, "Cannot update completed matches"⟩)) ∧
    (cancelSchedule fxC9Store 4 =
      (fxC9Store, .error ⟨400, "Cannot cancel completed matches"⟩)) ∧
    (cancelSchedule fxC9Store 1 =
      (fxC9Store, .error ⟨400, "Cannot cancel ongoing matches. End the match first."⟩)) ∧
    ((cancelSchedule fxC9Store 5).2 = .ok "Schedule cancelled successfully") ∧
    ((updateSchedule fxC9Store 1 fxCancelBody).2 =
      .ok { fxSubMatch with status := Status.cancelled }) ∧
    (findMatch (updateSchedule fxC9Store 1 fxCancelBody).1 1 =
      some { fxSubMatch with status := Status.cancelled }) ∧
    fxSubMatch.status = Status.ongoing :=
  ⟨rfl, rfl, rfl, rfl, rfl, by decide, by decide⟩

/-- Number of Statistics records carrying the given unique key. -/
def countKey (store : List Stat) (pid mid : Nat) : Nat :=
  (store.filter (fun st => st.playerId == pid && st.matchId == mid)).length

theorem findStat_none_iff (store : List Stat) (pid mid : Nat) :
    findStat store pid mid = none ↔ countKey store pid mid = 0 := by
  induction store with
  | nil => simp [findStat, countKey]
  | cons st rest ih =>
    by_cases h : (st.playerId == pid && st.matchId == mid) = true
    · simp [findStat, countKey, List.find?, List.filter_cons, h]
    · simp only [findStat, List.find?, h, countKey, List.filter_cons] at ih ⊢
      simp only [Bool.false_eq_true, if_false]
      exact ih

theorem findStat_some_count (store : List Stat) (pid mid : Nat) (st : Stat)
    (h : findStat store pid mid = some st) : 1 ≤ countKey store pid mid := by
  by_cases hc : countKey store pid mid = 0
  · rw [← findStat_none_iff] at hc
    rw [h] at hc
    exact Option.noConfusion hc
  · omega

theorem length_updateFirstStat (store : List Stat) (pid mid : Nat) (f : Stat → Stat) :
    (updateFirstStat store pid mid f).length = store.length := by
  induction store with
  | nil => rfl
  | cons st rest ih =>
    by_cases h : (st.playerId == pid && st.matchId == mid) = true
    · simp [updateFirstStat, h]
    · simp [updateFirstStat, h, ih]

theorem countKey_updateFirstStat (store : List Stat) (pid mid : Nat) (f : Stat → Stat)
    (hf : ∀ st, (f st).playerId = st.playerId ∧ (f st).matchId = st.matchId)
    (p q : Nat) :
    countKey (updateFirstStat store pid mid f) p q = countKey store p q := by
  induction store with
  | nil => rfl
  | cons st rest ih =>
    by_cases h : (st.playerId == pid && st.matchId == mid) = true
    · simp only [updateFirstStat, h, if_true, countKey, List.filter_cons,
        (hf st).1, (hf st).2]
      split <;> simp
    · simp only [updateFirstStat, h, Bool.false_eq_true, if_false, countKey,
        List.filter_cons]
      by_cases h2 : (st.playerId == p && st.matchId == q) = true
      · simp only [h2, if_true, List.length_cons]
        have := ih
        simp only [countKey] at this
        omega
      · simp only [h2, Bool.false_eq_true, if_false]
        exact ih

theorem countKey_append_single (store : List Stat) (st : Stat) (p q : Nat) :
    countKey (store ++ [st]) p q =
      countKey store p q + (if st.playerId = p ∧ st.matchId = q then 1 else 0) := by
  simp only [countKey, List.filter_append]
  by_cases h : st.playerId = p ∧ st.matchId = q
  · simp [h]
  · have : (st.playerId == p && st.matchId == q) = false := by
      rcases not_and_or.mp h with h1 | h1 <;> simp [h1]
    simp [List.filter_cons, this, h]

theorem countKey_processPerformance (players : List Player) (m : Match) (store : List Stat)
    (perf : Performance) (p q : Nat) :
    countKey (processPerformance players m store perf) p q =
      if perf.playerId = p ∧ m.id = q then max (countKey store p q) 1
      else countKey store p q := by
  unfold processPerformance
  cases hf : findStat store perf.playerId m.id with
  | some st =>
    dsimp only
    have h1 := findStat_some_count store perf.playerId m.id st hf
    rw [countKey_updateFirstStat store perf.playerId m.id (perfStatUpdate players perf)
      (fun st0 => ⟨rfl, rfl⟩)]
    by_cases hk : perf.playerId = p ∧ m.id = q
    · rcases hk with ⟨hk1, hk2⟩
      subst hk1; subst hk2
      rw [if_pos ⟨rfl, rfl⟩]
      omega
    · rw [if_neg hk]
  | none =>
    dsimp only
    have h0 : countKey store perf.playerId m.id = 0 := (findStat_none_iff _ _ _).mp hf
    rw [countKey_append_single]
    by_cases hk : perf.playerId = p ∧ m.id = q
    · rcases hk with ⟨hk1, hk2⟩
      subst hk1; subst hk2
      rw [if_pos ⟨rfl, rfl⟩, if_pos ⟨rfl, rfl⟩]
      omega
    · rw [if_neg hk, if_neg hk]
      omega

theorem length_processPerformance (players : List Player) (m : Match) (store : List Stat)
    (perf : Performance) :
    (processPerformance players m store perf).length =
      if countKey store perf.playerId m.id = 0 then store.length + 1 else store.length := by
  unfold processPerformance
  cases hf : findStat store perf.playerId m.id with
  | some st =>
    dsimp only
    have h1 := findStat_some_count store perf.playerId m.id st hf
    rw [length_updateFirstStat, if_neg (by omega)]
  | none =>
    dsimp only
    have h0 : countKey store perf.playerId m.id = 0 := (findStat_none_iff _ _ _).mp hf
    rw [if_pos h0]
    simp

theorem countKey_processTeamSheetPlayer (players : List Player) (m : Match) (store : List Stat)
    (pid : Nat) (p q : Nat) :
    countKey (processTeamSheetPlayer players m store pid) p q =
      if (m.playerPerformances.find? (fun pf => pf.playerId == pid)).isSome then
        countKey store p q
      else if pid = p ∧ m.id = q then max (countKey store p q) 1
      else countKey store p q := by
  unfold processTeamSheetPlayer
  by_cases hperf : (m.playerPerformances.find? (fun pf => pf.playerId == pid)).isSome = true
  · rw [if_pos hperf, if_pos hperf]
  · rw [if_neg hperf, if_neg hperf]
    cases hf : findStat store pid m.id with
    | some st =>
      dsimp only
      have h1 := findStat_some_count store pid m.id st hf
      rw [countKey_updateFirstStat store pid m.id (tsStatUpdate (m.getPlayerPlaytime pid))
        (fun st0 => ⟨rfl, rfl⟩)]
      by_cases hk : pid = p ∧ m.id = q
      · rcases hk with ⟨hk1, hk2⟩
        subst hk1; subst hk2
        rw [if_pos ⟨rfl, rfl⟩]
        omega
      · rw [if_neg hk]
    | none =>
      dsimp only
      have h0 : countKey store pid m.id = 0 := (findStat_none_iff _ _ _).mp hf
      rw [countKey_append_single]
      by_cases hk : pid = p ∧ m.id = q
      · rcases hk with ⟨hk1, hk2⟩
        subst hk1; subst hk2
        rw [if_pos ⟨rfl, rfl⟩, if_pos ⟨rfl, rfl⟩]
        omega
      · rw [if_neg hk, if_neg hk]
        omega

theorem length_processTeamSheetPlayer (players : List Player) (m : Match) (store : List Stat)
    (pid : Nat) :
    (processTeamSheetPlayer players m store pid).length =
      if (m.playerPerformances.find? (fun pf => pf.playerId == pid)).isSome then store.length
      else if countKey store pid m.id = 0 then store.length + 1 else store.length := by
  unfold processTeamSheetPlayer
  by_cases hperf : (m.playerPerformances.find? (fun pf => pf.playerId == pid)).isSome = true
  · rw [if_pos hperf, if_pos hperf]
  · rw [if_neg hperf, if_neg hperf]
    cases hf : findStat store pid m.id with
    | some st =>
      dsimp only
      have h1 := findStat_some_count store pid m.id st hf
      rw [length_updateFirstStat, if_neg (by omega)]
    | none =>
      dsimp only
      have h0 : countKey store pid m.id = 0 := (findStat_none_iff _ _ _).mp hf
      rw [if_pos h0]
      simp


theorem countKey_foldl_perfs (players : List Player) (m : Match) (perfs : List Performance)
    (store : List Stat) (p q : Nat) :
    countKey (perfs.foldl (processPerformance players m) store) p q =
      if q = m.id ∧ p ∈ perfs.map Performance.playerId then max (countKey store p q) 1
      else countKey store p q := by
  induction perfs generalizing store with
  | nil => simp
  | cons perf t ih =>
    rw [List.foldl_cons, ih, countKey_processPerformance]
    by_cases hq : q = m.id
    · by_cases hp : perf.playerId = p
      · by_cases hmem : p ∈ t.map Performance.playerId <;> simp [hq, hp, hmem]
      · have hp2 : ¬ (p = perf.playerId) := fun h => hp h.symm
        by_cases hmem : p ∈ t.map Performance.playerId <;>
          simp [hq, hp, hp2, hmem]
    · by_cases hp : perf.playerId = p <;> by_cases hmem : p ∈ t.map Performance.playerId <;>
        simp [hq, hp, hmem] <;> omega


theorem countKey_foldl_ts (players : List Player) (m : Match) (ts : List Nat)
    (store : List Stat) (p q : Nat) :
    countKey (ts.foldl (processTeamSheetPlayer players m) store) p q =
      if q = m.id ∧ p ∈ ts ∧
          (m.playerPerformances.find? (fun pf => pf.playerId == p)).isSome = false
      then max (countKey store p q) 1 else countKey store p q := by
  induction ts generalizing store with
  | nil => simp
  | cons pid t ih =>
    rw [List.foldl_cons, ih, countKey_processTeamSheetPlayer]
    by_cases hq : q = m.id
    · by_cases hpid : pid = p
      · subst hpid
        by_cases hsome :
            (m.playerPerformances.find? (fun pf => pf.playerId == pid)).isSome = true
        · simp [hq, hsome]
        · by_cases hmem : pid ∈ t <;> simp [hq, hsome, hmem]
      · have hp2 : ¬ (p = pid) := fun h => hpid h.symm
        by_cases hsome :
            (m.playerPerformances.find? (fun pf => pf.playerId == pid)).isSome = true <;>
          by_cases hmem : p ∈ t <;> simp [hq, hpid, hp2, hsome, hmem]
    · have hq2 : ¬ (m.id = q) := fun h => hq h.symm
      by_cases hsome :
          (m.playerPerformances.find? (fun pf => pf.playerId == pid)).isSome = true <;>
        simp [hq, hq2, hsome]


theorem foldl_perfs_length_of_present (players : List Player) (m : Match)
    (perfs : List Performance) (store : List Stat)
    (h : ∀ pf ∈ perfs, 1 ≤ countKey store pf.playerId m.id) :
    (perfs.foldl (processPerformance players m) store).length = store.length := by
  induction perfs generalizing store with
  | nil => rfl
  | cons perf t ih =>
    rw [List.foldl_cons]
    have h0 : 1 ≤ countKey store perf.playerId m.id := h perf (List.mem_cons_self _ _)
    have h' : ∀ pf ∈ t, 1 ≤ countKey (processPerformance players m store perf) pf.playerId m.id := by
      intro pf hpf
      have hge := h pf (List.mem_cons_of_mem _ hpf)
      rw [countKey_processPerformance]
      split <;> omega
    rw [ih _ h', length_processPerformance, if_neg (by omega)]

theorem foldl_ts_length_of_present (players : List Player) (m : Match)
    (ts : List Nat) (store : List Stat)
    (h : ∀ pid ∈ ts, (m.playerPerformances.find? (fun pf => pf.playerId == pid)).isSome = true ∨
      1 ≤ countKey store pid m.id) :
    (ts.foldl (processTeamSheetPlayer players m) store).length = store.length := by
  induction ts generalizing store with
  | nil => rfl
  | cons pid t ih =>
    rw [List.foldl_cons]
    have h0 := h pid (List.mem_cons_self _ _)
    have h' : ∀ pid' ∈ t,
        (m.playerPerformances.find? (fun pf => pf.playerId == pid')).isSome = true ∨
        1 ≤ countKey (processTeamSheetPlayer players m store pid) pid' m.id := by
      intro pid' hpid'
      rcases h pid' (List.mem_cons_of_mem _ hpid') with h1 | h1
      · exact Or.inl h1
      · right
        rw [countKey_processTeamSheetPlayer]
        split
        · omega
        · split <;> omega
    rw [ih _ h', length_processTeamSheetPlayer]
    by_cases hsome :
        (m.playerPerformances.find? (fun pf => pf.playerId == pid)).isSome = true
    · rw [if_pos hsome]
    · rw [if_neg hsome]
      rcases h0 with h1 | h1
      · exact absurd h1 hsome
      · rw [if_neg (by omega)]


/-- C2: from a statistics store whose unique playerId+matchId index holds
(at most one record per pair), materialization gives every team-sheet player
of the match exactly one Statistics record for that matchId, and re-running
the materialization with unchanged performances creates no additional
records. -/
theorem spec_C2_statistics_upsert (players : List Player) (m : Match) (store : List Stat)
    (hu : ∀ p q, countKey store p q ≤ 1) :
    (∀ pid ∈ m.teamSheet,
      countKey (createStatisticsFromMatch players m store) pid m.id = 1) ∧
    (createStatisticsFromMatch players m (createStatisticsFromMatch players m store)).length =
      (createStatisticsFromMatch players m store).length := by
  constructor
  · intro pid hpid
    unfold createStatisticsFromMatch
    rw [countKey_foldl_ts, countKey_foldl_perfs]
    by_cases hsome :
        (m.playerPerformances.find? (fun pf => pf.playerId == pid)).isSome = true
    · have hmap : pid ∈ m.playerPerformances.map Performance.playerId := by
        rcases Option.isSome_iff_exists.mp hsome with ⟨pf, hpf⟩
        have h1 := List.find?_some hpf
        have h2 := List.mem_of_find?_eq_some hpf
        exact List.mem_map.mpr ⟨pf, h2, by simpa using h1⟩
      rw [if_neg (by simp [hsome]), if_pos ⟨rfl, hmap⟩]
      have := hu pid m.id
      omega
    · have hnone : m.playerPerformances.find? (fun pf => pf.playerId == pid) = none := by
        simpa using hsome
      have hmap : pid ∉ m.playerPerformances.map Performance.playerId := by
        intro hmem
        rcases List.mem_map.mp hmem with ⟨pf, hpf, heq⟩
        have hx := List.find?_eq_none.mp hnone pf hpf
        simp [heq] at hx
      rw [if_pos ⟨rfl, hpid, by simpa using hsome⟩, if_neg (by simp [hmap])]
      have := hu pid m.id
      omega
  · have hs1 : ∀ pf ∈ m.playerPerformances,
        1 ≤ countKey (createStatisticsFromMatch players m store) pf.playerId m.id := by
      intro pf hpf
      have hmap : pf.playerId ∈ m.playerPerformances.map Performance.playerId :=
        List.mem_map.mpr ⟨pf, hpf, rfl⟩
      unfold createStatisticsFromMatch
      rw [countKey_foldl_ts, countKey_foldl_perfs]
      split <;> rw [if_pos ⟨rfl, hmap⟩] <;> omega
    have hs1ts : ∀ pid ∈ m.teamSheet,
        (m.playerPerformances.find? (fun pf => pf.playerId == pid)).isSome = true ∨
        1 ≤ countKey (createStatisticsFromMatch players m store) pid m.id := by
      intro pid hpid
      by_cases hsome :
          (m.playerPerformances.find? (fun pf => pf.playerId == pid)).isSome = true
      · exact Or.inl hsome
      · right
        unfold createStatisticsFromMatch
        rw [countKey_foldl_ts]
        rw [if_pos ⟨rfl, hpid, by simpa using hsome⟩]
        omega
    conv_lhs => rw [createStatisticsFromMatch]
    rw [foldl_ts_length_of_present, foldl_perfs_length_of_present]
    · exact hs1
    · intro pid hpid
      rcases hs1ts pid hpid with h1 | h1
      · exact Or.inl h1
      · right
        have hge : countKey (createStatisticsFromMatch players m store) pid m.id ≤
            countKey (m.playerPerformances.foldl (processPerformance players m)
              (createStatisticsFromMatch players m store)) pid m.id := by
          rw [countKey_foldl_perfs]
          split <;> omega
        omega

/-- Fixture performance entry for player 7. -/
def fxPerf7 : Performance :=
  { playerId := 7, goals := 2, assists := 0, yellowCards := 0, redCards := 0,
    rating := none, playerOfMatch := false, minutesPlayed := 30 }

/-- Fixture completed match with team sheet [7, 8] and one performance. -/
def fxStatsMatch : Match :=
  { id := 11, date := 0, type := MatchType.match_, teamSheet := [7, 8], substitutions := [],
    playtime := [(7, 30), (8, 30)], status := Status.completed, duration := 90,
    opponent := none, venue := none, notes := none,
    matchResult := some { result := "win", ourScore := 2, opponentScore := 0 },
    playerPerformances := [fxPerf7], createdAt := 0 }

/-- C2 witness: materializing the fixture match from an empty statistics
store yields exactly one record each for players 7 (via the performance
loop) and 8 (via the zero-stat loop), and a second run adds none. -/
theorem spec_C2_statistics_upsert_witness :
    countKey (createStatisticsFromMatch [] fxStatsMatch []) 7 fxStatsMatch.id = 1 ∧
    countKey (createStatisticsFromMatch [] fxStatsMatch []) 8 fxStatsMatch.id = 1 ∧
    (createStatisticsFromMatch [] fxStatsMatch
        (createStatisticsFromMatch [] fxStatsMatch [])).length =
      (createStatisticsFromMatch [] fxStatsMatch []).length :=
  ⟨(spec_C2_statistics_upsert [] fxStatsMatch [] (fun p q => by simp [countKey])).1
      7 (by decide),
   (spec_C2_statistics_upsert [] fxStatsMatch [] (fun p q => by simp [countKey])).1
      8 (by decide),
   (spec_C2_statistics_upsert [] fxStatsMatch [] (fun p q => by simp [countKey])).2⟩

theorem length_filter_compl {α : Type} (pr : α → Bool) (l : List α) :
    (l.filter pr).length + (l.filter (fun a => !(pr a))).length = l.length := by
  induction l with
  | nil => rfl
  | cons a t ih =>
    by_cases h : pr a = true <;> simp [List.filter_cons, h] <;> omega


theorem fill_take_length (available selected rem : List Player)
    (hrem : rem.length = (available.filter (fun p => ¬ selected.contains p)).length)
    (hnd : available.Nodup) (h11 : 11 ≤ available.length) :
    ((selected ++ rem.take (11 - selected.length)).take 11).length = 11 := by
  rw [List.length_take, List.length_append, List.length_take]
  have hbridge : available.filter (fun p => ¬ selected.contains p) =
      available.filter (fun p => !(selected.contains p)) := by
    apply List.filter_congr
    intro a _
    cases h : selected.contains a <;> simp [h]
  have hpart := length_filter_compl (fun p => selected.contains p) available
  have hsubset : (available.filter (fun p => selected.contains p)) ⊆ selected := by
    intro a ha
    have := List.of_mem_filter ha
    simpa using this
  have hndf : (available.filter (fun p => selected.contains p)).Nodup := hnd.filter _
  have hle : (available.filter (fun p => selected.contains p)).length ≤ selected.length :=
    (hndf.subperm hsubset).length_le
  rw [hrem, hbridge]
  omega

theorem generateOptimalTeam_card (available : List Player) (pt : Nat → Int)
    (pr : Bool) (hnd : available.Nodup) (h11 : 11 ≤ available.length) :
    (generateOptimalTeam available pt "4-4-2" pr).length = 11 := by
  have hc : parseFormationComponents "4-4-2" = [some 4, some 4, some 2] := by decide
  set gkB := sortBucket pt pr Pos.Goalkeeper
    (available.filter (fun p => p.position == Pos.Goalkeeper)) with hgkB
  set dB := sortBucket pt pr Pos.Defender
    (available.filter (fun p =>
      p.position == Pos.Defender || p.preferredPositions.contains Pos.Defender)) with hdB
  set mB := sortBucket pt pr Pos.Midfielder
    (available.filter (fun p =>
      p.position == Pos.Midfielder || p.preferredPositions.contains Pos.Midfielder)) with hmB
  set fB := sortBucket pt pr Pos.Forward
    (available.filter (fun p =>
      p.position == Pos.Forward || p.preferredPositions.contains Pos.Forward)) with hfB
  set sel := gkB.take 1 ++ dB.take 4 ++ mB.take 4 ++ fB.take 2 with hsel
  set rem := stableSort (fun a b => decide (pt a.id ≤ pt b.id))
    (available.filter (fun p => ¬ sel.contains p)) with hremdef
  have heq : generateOptimalTeam available pt "4-4-2" pr =
      (sel ++ rem.take (11 - sel.length)).take 11 := by
    unfold generateOptimalTeam
    rw [hc]
    rfl
  rw [heq]
  exact fill_take_length available sel rem
    (by rw [hremdef]; exact length_stableSort _ _) hnd h11


theorem generateOptimalTeam_goalkeeper (available : List Player) (pt : Nat → Int)
    (pr : Bool) (hgk : ∃ g ∈ available, g.position = Pos.Goalkeeper) :
    ∃ g ∈ generateOptimalTeam available pt "4-4-2" pr, g.position = Pos.Goalkeeper := by
  have hc : parseFormationComponents "4-4-2" = [some 4, some 4, some 2] := by decide
  set gkB := sortBucket pt pr Pos.Goalkeeper
    (available.filter (fun p => p.position == Pos.Goalkeeper)) with hgkB
  set dB := sortBucket pt pr Pos.Defender
    (available.filter (fun p =>
      p.position == Pos.Defender || p.preferredPositions.contains Pos.Defender)) with hdB
  set mB := sortBucket pt pr Pos.Midfielder
    (available.filter (fun p =>
      p.position == Pos.Midfielder || p.preferredPositions.contains Pos.Midfielder)) with hmB
  set fB := sortBucket pt pr Pos.Forward
    (available.filter (fun p =>
      p.position == Pos.Forward || p.preferredPositions.contains Pos.Forward)) with hfB
  set sel := gkB.take 1 ++ dB.take 4 ++ mB.take 4 ++ fB.take 2 with hsel
  set rem := stableSort (fun a b => decide (pt a.id ≤ pt b.id))
    (available.filter (fun p => ¬ sel.contains p)) with hremdef
  have heq : generateOptimalTeam available pt "4-4-2" pr =
      (sel ++ rem.take (11 - sel.length)).take 11 := by
    unfold generateOptimalTeam
    rw [hc]
    rfl
  rcases hgk with ⟨g, hg, hgpos⟩
  have hfne : (available.filter (fun p => p.position == Pos.Goalkeeper)) ≠ [] := by
    intro h0
    have hmem : g ∈ available.filter (fun p => p.position == Pos.Goalkeeper) :=
      List.mem_filter.mpr ⟨hg, by simp [hgpos]⟩
    rw [h0] at hmem
    cases hmem
  have hlen : 0 < gkB.length := by
    rw [hgkB]
    unfold sortBucket
    rw [length_stableSort]
    exact List.length_pos.mpr hfne
  obtain ⟨g0, t0, hgk0⟩ := List.exists_cons_of_ne_nil (List.ne_nil_of_length_pos hlen)
  have hg0pos : g0.position = Pos.Goalkeeper := by
    have hmem : g0 ∈ gkB := by
      rw [hgk0]
      exact List.mem_cons_self _ _
    rw [hgkB] at hmem
    unfold sortBucket at hmem
    have h1 := (mem_stableSort _ _ _).mp hmem
    have h2 := List.of_mem_filter h1
    simpa using h2
  refine ⟨g0, ?_, hg0pos⟩
  rw [heq]
  have hselhead : sel = g0 :: (dB.take 4 ++ mB.take 4 ++ fB.take 2) := by
    rw [hsel, hgk0]
    rfl
  rw [hselhead]
  have htake : ((g0 :: (dB.take 4 ++ mB.take 4 ++ fB.take 2)) ++
      rem.take (11 - (g0 :: (dB.take 4 ++ mB.take 4 ++ fB.take 2)).length)).take 11 =
      g0 :: ((dB.take 4 ++ mB.take 4 ++ fB.take 2) ++
        rem.take (11 - (g0 :: (dB.take 4 ++ mB.take 4 ++ fB.take 2)).length)).take 10 := rfl
  rw [htake]
  exact List.mem_cons_self _ _


theorem generateTeamSheet_ok_card (s : Store) (mid : Nat) (req : GenerateTeamRequest)
    (now : Int) (hnd : s.players.Nodup)
    (hform : req.formationPreference = some "4-4-2" ∨ req.formationPreference = none) :
    ∀ m' team, (generateTeamSheet s mid req now).2 = .ok (m', team) →
      m'.teamSheet.length = 11 ∧ team.length = 11 := by
  intro m' team h
  unfold generateTeamSheet at h
  cases hfm : findMatch s mid with
  | none =>
    rw [hfm] at h
    exact absurd h (by simp)
  | some m =>
    rw [hfm] at h
    dsimp only at h
    by_cases hst : m.status ≠ Status.scheduled
    · rw [if_pos hst] at h
      exact absurd h (by simp)
    · rw [if_neg hst] at h
      by_cases hecnt : (eligiblePlayers s.players).length < 11
      · rw [if_pos hecnt] at h
        exact absurd h (by simp)
      · rw [if_neg hecnt] at h
        have hx := Except.ok.inj h
        injection hx with h1 h2
        subst h1
        subst h2
        have h11 : 11 ≤ (eligiblePlayers s.players).length := Nat.le_of_not_lt hecnt
        have hndE : (eligiblePlayers s.players).Nodup := hnd.filter _
        have hformEq : req.formationPreference.getD "4-4-2" = "4-4-2" := by
          rcases hform with h1 | h1 <;> simp [h1]
        rw [hformEq]
        constructor
        · rw [List.length_map]
          exact generateOptimalTeam_card _ _ _ hndE h11
        · exact generateOptimalTeam_card _ _ _ hndE h11


/-- Fixture pool player for the generator claims. -/
def fxPoolPlayer (i : Nat) (ps : Pos) : Player :=
  { id := i, name := "P", jerseyNumber := i, position := ps, preferredPositions := [ps],
    injuryStatus := InjuryStatus.Healthy, availability := true }

/-- Fixture eligible pool: two goalkeepers, three defenders, four midfielders
and two forwards (eleven players, thin at defence). -/
def fxGenPlayers : List Player :=
  [fxPoolPlayer 1 Pos.Goalkeeper, fxPoolPlayer 2 Pos.Goalkeeper,
   fxPoolPlayer 3 Pos.Defender, fxPoolPlayer 4 Pos.Defender, fxPoolPlayer 5 Pos.Defender,
   fxPoolPlayer 6 Pos.Midfielder, fxPoolPlayer 7 Pos.Midfielder,
   fxPoolPlayer 8 Pos.Midfielder, fxPoolPlayer 9 Pos.Midfielder,
   fxPoolPlayer 10 Pos.Forward, fxPoolPlayer 11 Pos.Forward]

/-- Fixture scheduled match for team generation. -/
def fxGenMatch : Match :=
  { id := 21, date := 0, type := MatchType.match_, teamSheet := [], substitutions := [],
    playtime := [], status := Status.scheduled, duration := 90, opponent := none,
    venue := none, notes := none, matchResult := none, playerPerformances := [],
    createdAt := 0 }

/-- Fixture store for the generator claims. -/
def fxGenStore : Store :=
  { players := fxGenPlayers, matchDocs := [fxGenMatch], stats := [] }

/-- Fixture generation request with all defaults. -/
def fxGenReq : GenerateTeamRequest :=
  { formationPreference := none, prioritizeRest := none }

/-- The team the generator produces on the fixture pool: positional picks in
bucket order, then the second goalkeeper as the lowest-minutes fill. -/
def fxGenTeam : List Player :=
  [fxPoolPlayer 1 Pos.Goalkeeper,
   fxPoolPlayer 3 Pos.Defender, fxPoolPlayer 4 Pos.Defender, fxPoolPlayer 5 Pos.Defender,
   fxPoolPlayer 6 Pos.Midfielder, fxPoolPlayer 7 Pos.Midfielder,
   fxPoolPlayer 8 Pos.Midfielder, fxPoolPlayer 9 Pos.Midfielder,
   fxPoolPlayer 10 Pos.Forward, fxPoolPlayer 11 Pos.Forward,
   fxPoolPlayer 2 Pos.Goalkeeper]

/-- The match document the fixture generation writes back. -/
def fxGenResult : Match :=
  { fxGenMatch with teamSheet := [1, 3, 4, 5, 6, 7, 8, 9, 10, 11, 2] }

/-- C7 counterexample: on a scheduled match with eleven eligible players
including a goalkeeper, generation under formation "4-4-2" succeeds with 11
entries but the team contains TWO goalkeepers (the defender bucket is one
short, and the fill step takes the unselected goalkeeper as the
lowest-minutes remaining player), so "exactly 1 Goalkeeper" fails. -/
theorem spec_C7_counterexample :
    11 ≤ (eligiblePlayers fxGenStore.players).length ∧
    (∃ p ∈ eligiblePlayers fxGenStore.players, p.position = Pos.Goalkeeper) ∧
    ∃ m' team, (generateTeamSheet fxGenStore 21 fxGenReq 0).2 = .ok (m', team) ∧
      team.length = 11 ∧
      team.countP (fun p => p.position == Pos.Goalkeeper) = 2 ∧ (2 : Nat) ≠ 1 :=
  ⟨by decide, ⟨fxPoolPlayer 1 Pos.Goalkeeper, by decide, rfl⟩,
   fxGenResult, fxGenTeam, rfl, by decide, by decide, by decide⟩

/-- C7 as amended: team generation under formation "4-4-2" on a pool of at
least 11 distinct eligible players always yields exactly 11 entries and
includes at least one goalkeeper whenever one is eligible (more than one
goalkeeper can appear when outfield depth is thin or preferred positions
overlap); at the handler level every successful generation writes a
team sheet of exactly 11 entries. -/
theorem spec_C7_team_generation :
    (∀ available pt pr, List.Nodup available → 11 ≤ available.length →
      (generateOptimalTeam available pt "4-4-2" pr).length = 11 ∧
      ((∃ g ∈ available, g.position = Pos.Goalkeeper) →
        ∃ g ∈ generateOptimalTeam available pt "4-4-2" pr,
          g.position = Pos.Goalkeeper)) ∧
    (∀ s mid req now, List.Nodup s.players →
      (req.formationPreference = some "4-4-2" ∨ req.formationPreference = none) →
      ∀ m' team, (generateTeamSheet s mid req now).2 = .ok (m', team) →
        m'.teamSheet.length = 11 ∧ team.length = 11) :=
  ⟨fun available pt pr hnd h11 =>
    ⟨generateOptimalTeam_card available pt pr hnd h11,
     fun hgk => generateOptimalTeam_goalkeeper available pt pr hgk⟩,
   fun s mid req now hnd hform => generateTeamSheet_ok_card s mid req now hnd hform⟩

/-- C7 witness: the fixture pool evaluated concretely — 11 entries, a
goalkeeper present, and the handler-written team sheet of length 11. -/
theorem spec_C7_team_generation_witness :
    (generateOptimalTeam fxGenPlayers (fun _ => 0) "4-4-2" false).length = 11 ∧
    (∃ g ∈ generateOptimalTeam fxGenPlayers (fun _ => 0) "4-4-2" false,
      g.position = Pos.Goalkeeper) ∧
    fxGenResult.teamSheet.length = 11 :=
  ⟨(spec_C7_team_generation.1 fxGenPlayers (fun _ => 0) false (by decide) (by decide)).1,
   (spec_C7_team_generation.1 fxGenPlayers (fun _ => 0) false (by decide) (by decide)).2
     ⟨fxPoolPlayer 1 Pos.Goalkeeper, by decide, rfl⟩,
   (spec_C7_team_generation.2 fxGenStore 21 fxGenReq 0 (by decide) (Or.inr rfl)
      fxGenResult fxGenTeam rfl).1⟩

end Soccer
